import Mathlib

/-!
# Kohi engine: keycode translation and platform event pumps

A shallow embedding of the keycode translators and event pumps of
`engine/src/platform/platform_linux.c` and `engine/src/platform/platform_win32.c`,
together with the enumerations of `engine/src/core/input.h`.

Machine integers are natural numbers or integers; the width of the C type is
recorded in the comments and reductions modulo `2^w` are written out where a
conversion can change the value.  Calls into the input subsystem and the event
bus are recorded as a trace of `Call` values, in program order.
-/

set_option maxRecDepth 100000

/-! ## `core/input.h` -/

/-- Enumerator `BUTTON_LEFT` of `enum buttons`. -/
def BUTTON_LEFT : Nat := 0

/-- Enumerator `BUTTON_RIGHT` of `enum buttons`. -/
def BUTTON_RIGHT : Nat := 1

/-- Enumerator `BUTTON_MIDDLE` of `enum buttons`. -/
def BUTTON_MIDDLE : Nat := 2

/-- Enumerator `BUTTON_MAX_BUTTONS` of `enum buttons`. -/
def BUTTON_MAX_BUTTONS : Nat := 3

/-- The named members of `enum keys`, `KEYS_MAX_KEYS` apart. -/
inductive keys where
  | KEY_BACKSPACE
  | KEY_ENTER
  | KEY_TAB
  | KEY_SHIFT
  | KEY_CONTROL
  | KEY_PAUSE
  | KEY_CAPITAL
  | KEY_ESCAPE
  | KEY_CONVERT
  | KEY_NONCONVERT
  | KEY_ACCEPT
  | KEY_MODECHANGE
  | KEY_SPACE
  | KEY_PRIOR
  | KEY_NEXT
  | KEY_END
  | KEY_HOME
  | KEY_LEFT
  | KEY_UP
  | KEY_RIGHT
  | KEY_DOWN
  | KEY_SELECT
  | KEY_PRINT
  | KEY_EXECUTE
  | KEY_SNAPSHOT
  | KEY_INSERT
  | KEY_DELETE
  | KEY_HELP
  | KEY_0
  | KEY_1
  | KEY_2
  | KEY_3
  | KEY_4
  | KEY_5
  | KEY_6
  | KEY_7
  | KEY_8
  | KEY_9
  | KEY_A
  | KEY_B
  | KEY_C
  | KEY_D
  | KEY_E
  | KEY_F
  | KEY_G
  | KEY_H
  | KEY_I
  | KEY_J
  | KEY_K
  | KEY_L
  | KEY_M
  | KEY_N
  | KEY_O
  | KEY_P
  | KEY_Q
  | KEY_R
  | KEY_S
  | KEY_T
  | KEY_U
  | KEY_V
  | KEY_W
  | KEY_X
  | KEY_Y
  | KEY_Z
  | KEY_LWIN
  | KEY_RWIN
  | KEY_APPS
  | KEY_SLEEP
  | KEY_NUMPAD0
  | KEY_NUMPAD1
  | KEY_NUMPAD2
  | KEY_NUMPAD3
  | KEY_NUMPAD4
  | KEY_NUMPAD5
  | KEY_NUMPAD6
  | KEY_NUMPAD7
  | KEY_NUMPAD8
  | KEY_NUMPAD9
  | KEY_MULTIPLY
  | KEY_ADD
  | KEY_SEPARATOR
  | KEY_SUBTRACT
  | KEY_DECIMAL
  | KEY_DIVIDE
  | KEY_F1
  | KEY_F2
  | KEY_F3
  | KEY_F4
  | KEY_F5
  | KEY_F6
  | KEY_F7
  | KEY_F8
  | KEY_F9
  | KEY_F10
  | KEY_F11
  | KEY_F12
  | KEY_F13
  | KEY_F14
  | KEY_F15
  | KEY_F16
  | KEY_F17
  | KEY_F18
  | KEY_F19
  | KEY_F20
  | KEY_F21
  | KEY_F22
  | KEY_F23
  | KEY_F24
  | KEY_NUMLOCK
  | KEY_SCROLL
  | KEY_NUMPAD_EQUAL
  | KEY_LSHIFT
  | KEY_RSHIFT
  | KEY_LCONTROL
  | KEY_RCONTROL
  | KEY_LALT
  | KEY_RALT
  | KEY_SEMICOLON
  | KEY_PLUS
  | KEY_COMMA
  | KEY_MINUS
  | KEY_PERIOD
  | KEY_SLASH
  | KEY_GRAVE
  deriving DecidableEq, Repr

/-- The numeric value the header gives each named member of `enum keys`. -/
def keys.val : keys → Nat
  | .KEY_BACKSPACE => 0x00
  | .KEY_ENTER => 0x01
  | .KEY_TAB => 0x02
  | .KEY_SHIFT => 0x03
  | .KEY_CONTROL => 0x04
  | .KEY_PAUSE => 0x05
  | .KEY_CAPITAL => 0x06
  | .KEY_ESCAPE => 0x07
  | .KEY_CONVERT => 0x08
  | .KEY_NONCONVERT => 0x09
  | .KEY_ACCEPT => 0x0a
  | .KEY_MODECHANGE => 0x0b
  | .KEY_SPACE => 0x0c
  | .KEY_PRIOR => 0x0d
  | .KEY_NEXT => 0x0e
  | .KEY_END => 0x0f
  | .KEY_HOME => 0x10
  | .KEY_LEFT => 0x11
  | .KEY_UP => 0x12
  | .KEY_RIGHT => 0x13
  | .KEY_DOWN => 0x14
  | .KEY_SELECT => 0x15
  | .KEY_PRINT => 0x16
  | .KEY_EXECUTE => 0x17
  | .KEY_SNAPSHOT => 0x18
  | .KEY_INSERT => 0x19
  | .KEY_DELETE => 0x1a
  | .KEY_HELP => 0x1b
  | .KEY_0 => 0x1c
  | .KEY_1 => 0x1d
  | .KEY_2 => 0x1e
  | .KEY_3 => 0x1f
  | .KEY_4 => 0x20
  | .KEY_5 => 0x21
  | .KEY_6 => 0x22
  | .KEY_7 => 0x23
  | .KEY_8 => 0x24
  | .KEY_9 => 0x25
  | .KEY_A => 0x26
  | .KEY_B => 0x27
  | .KEY_C => 0x28
  | .KEY_D => 0x29
  | .KEY_E => 0x2a
  | .KEY_F => 0x2b
  | .KEY_G => 0x2c
  | .KEY_H => 0x2d
  | .KEY_I => 0x2e
  | .KEY_J => 0x2f
  | .KEY_K => 0x30
  | .KEY_L => 0x31
  | .KEY_M => 0x32
  | .KEY_N => 0x33
  | .KEY_O => 0x34
  | .KEY_P => 0x35
  | .KEY_Q => 0x36
  | .KEY_R => 0x37
  | .KEY_S => 0x38
  | .KEY_T => 0x39
  | .KEY_U => 0x3a
  | .KEY_V => 0x3b
  | .KEY_W => 0x3c
  | .KEY_X => 0x3d
  | .KEY_Y => 0x3e
  | .KEY_Z => 0x3f
  | .KEY_LWIN => 0x40
  | .KEY_RWIN => 0x41
  | .KEY_APPS => 0x42
  | .KEY_SLEEP => 0x43
  | .KEY_NUMPAD0 => 0x44
  | .KEY_NUMPAD1 => 0x45
  | .KEY_NUMPAD2 => 0x46
  | .KEY_NUMPAD3 => 0x47
  | .KEY_NUMPAD4 => 0x48
  | .KEY_NUMPAD5 => 0x49
  | .KEY_NUMPAD6 => 0x4a
  | .KEY_NUMPAD7 => 0x4b
  | .KEY_NUMPAD8 => 0x4c
  | .KEY_NUMPAD9 => 0x4d
  | .KEY_MULTIPLY => 0x4e
  | .KEY_ADD => 0x4f
  | .KEY_SEPARATOR => 0x50
  | .KEY_SUBTRACT => 0x51
  | .KEY_DECIMAL => 0x52
  | .KEY_DIVIDE => 0x53
  | .KEY_F1 => 0x54
  | .KEY_F2 => 0x55
  | .KEY_F3 => 0x56
  | .KEY_F4 => 0x57
  | .KEY_F5 => 0x58
  | .KEY_F6 => 0x59
  | .KEY_F7 => 0x5a
  | .KEY_F8 => 0x5b
  | .KEY_F9 => 0x5c
  | .KEY_F10 => 0x5d
  | .KEY_F11 => 0x5e
  | .KEY_F12 => 0x5f
  | .KEY_F13 => 0x60
  | .KEY_F14 => 0x61
  | .KEY_F15 => 0x62
  | .KEY_F16 => 0x63
  | .KEY_F17 => 0x64
  | .KEY_F18 => 0x65
  | .KEY_F19 => 0x66
  | .KEY_F20 => 0x67
  | .KEY_F21 => 0x68
  | .KEY_F22 => 0x69
  | .KEY_F23 => 0x6a
  | .KEY_F24 => 0x6b
  | .KEY_NUMLOCK => 0x6b
  | .KEY_SCROLL => 0x6d
  | .KEY_NUMPAD_EQUAL => 0x6e
  | .KEY_LSHIFT => 0x6f
  | .KEY_RSHIFT => 0x70
  | .KEY_LCONTROL => 0x71
  | .KEY_RCONTROL => 0x72
  | .KEY_LALT => 0x73
  | .KEY_RALT => 0x74
  | .KEY_SEMICOLON => 0x75
  | .KEY_PLUS => 0x76
  | .KEY_COMMA => 0x77
  | .KEY_MINUS => 0x78
  | .KEY_PERIOD => 0x79
  | .KEY_SLASH => 0x7a
  | .KEY_GRAVE => 0x7b

/-- Enumerator `KEYS_MAX_KEYS`, the number of slots of each lookup table. -/
def KEYS_MAX_KEYS : Nat := 0x7c

/-! ## Table search shared by both translators -/

/-- The loop `for (i = 0; i < KEYS_MAX_KEYS; ++i) if (key_lookup_table[i] == code) return i;`
started at index `i` with `remaining` iterations left.  The result is `none`
when the loop runs to completion without returning. -/
def lookup_loop (table : List Nat) (code : Nat) : Nat → Nat → Option Nat
  | 0, _ => none
  | remaining + 1, i =>
    if table.getD i 0 = code then some i
    else lookup_loop table code remaining (i + 1)

/-! ## `platform_linux.c` -/

namespace Linux

/-- The table `key_lookup_table` of `platform_linux.c` (X keysyms, `u32`). -/
def key_lookup_table : List Nat :=
  [
    0xff08, 0xff0d, 0xff09, KEYS_MAX_KEYS, KEYS_MAX_KEYS, 0xff13, 0xffe5, 0xff1b,
    KEYS_MAX_KEYS, KEYS_MAX_KEYS, KEYS_MAX_KEYS, KEYS_MAX_KEYS, 0xff7e, 0xff55, 0xff56, 0xff57,
    0xff50, 0xff51, 0xff52, 0xff53, 0xff54, 0xff60, 0xff61, 0xff62,
    KEYS_MAX_KEYS, 0xff63, 0xffff, 0xff6A, 0x0030, 0x0031, 0x0032, 0x0033,
    0x0034, 0x0035, 0x0036, 0x0037, 0x0038, 0x0039, 0x0041, 0x0042,
    0x0043, 0x0044, 0x0045, 0x0046, 0x0047, 0x0048, 0x0049, 0x004A,
    0x004B, 0x004C, 0x004D, 0x004E, 0x004F, 0x0050, 0x0051, 0x0052,
    0x0053, 0x0054, 0x0055, 0x0056, 0x0057, 0x0058, 0x0059, 0x005A,
    0xffeb, 0xffec, KEYS_MAX_KEYS, KEYS_MAX_KEYS, 0xff9e, 0xff9c, 0xff99, 0xff9b,
    0xff96, 0xff9d, 0xff98, 0xff95, 0xff97, 0xff9a, 0xffaa, 0xffab,
    0xffac, 0xffad, 0xff9f, 0xffaf, 0xffbe, 0xffbf, 0xffc0, 0xffc1,
    0xffc2, 0xffc3, 0xffc4, 0xffc5, 0xffc6, 0xffc7, 0xffc8, 0xffc9,
    0xffca, 0xffcb, 0xffcc, 0xffcd, 0xffce, 0xffcf, 0xffd0, 0xffd1,
    0xffd2, 0xffd3, 0xffd4, 0xffd5, 0xff7f, 0xff14, 0xffbd, 0xffe1,
    0xffe2, 0xffe3, 0xffe4, 0xffe9, 0xfe03, 0x003b, 0x002b, 0x002c,
    0x002d, 0x002e, 0x002f, 0x0060
  ]

/-- The function `translate_keycode` of `platform_linux.c`: fold a lowercase
Latin keysym to uppercase, then return the first table index holding the
folded keysym, and `0` when the loop finds none. -/
def translate_keycode (x_keycode : Nat) : Nat :=
  let upper :=
    if x_keycode >>> 8 = 0 then
      if x_keycode ≥ 0x0061 ∧ x_keycode ≤ 0x007a then x_keycode - (0x0061 - 0x0041)
      else x_keycode
    else x_keycode
  match lookup_loop key_lookup_table upper KEYS_MAX_KEYS 0 with
  | some i => i
  | none => 0

end Linux

/-! ## `platform_win32.c` -/

namespace Win32

/-- The table `key_lookup_table` of `platform_win32.c` (virtual-key codes). -/
def key_lookup_table : List Nat :=
  [
    0x08, 0x0D, 0x09, 0x10, 0x11, 0x13, 0x14, 0x1B,
    0x1C, 0x1D, 0x1E, 0x1F, 0x20, 0x21, 0x22, 0x23,
    0x24, 0x25, 0x26, 0x27, 0x28, 0x29, 0x2A, 0x2B,
    0x2C, 0x2D, 0x2E, 0x2F, 0x30, 0x31, 0x32, 0x33,
    0x34, 0x35, 0x36, 0x37, 0x38, 0x39, 0x41, 0x42,
    0x43, 0x44, 0x45, 0x46, 0x47, 0x48, 0x49, 0x4A,
    0x4B, 0x4C, 0x4D, 0x4E, 0x4F, 0x50, 0x51, 0x52,
    0x53, 0x54, 0x55, 0x56, 0x57, 0x58, 0x59, 0x5A,
    0x5B, 0x5C, 0x5D, 0x5F, 0x60, 0x61, 0x62, 0x63,
    0x64, 0x65, 0x66, 0x67, 0x68, 0x69, 0x6A, 0x6B,
    0x6C, 0x6D, 0x6E, 0x6F, 0x70, 0x71, 0x72, 0x73,
    0x74, 0x75, 0x76, 0x77, 0x78, 0x79, 0x7A, 0x7B,
    0x7C, 0x7D, 0x7E, 0x7F, 0x80, 0x81, 0x82, 0x83,
    0x84, 0x85, 0x86, 0x87, 0x90, 0x91, 0x92, 0xA0,
    0xA1, 0xA2, 0xA3, 0xA4, 0xA5, 0xBA, 0xBB, 0xBC,
    0xBD, 0xBE, 0xBF, 0xC0
  ]

/-- The function `translate_keycode` of `platform_win32.c` (`key` is a `u16`).
The C function has no `return` after its loop: `none` stands for control
reaching the closing brace, where the value handed to the caller is undefined. -/
def translate_keycode (key : Nat) : Option Nat :=
  lookup_loop key_lookup_table key KEYS_MAX_KEYS 0

end Win32

/-! ## Calls made by the event pumps -/

/-- Modelled from the spec: `core/event.h` is not among the sources.  The two
event codes the platform layers emit on the event bus, `APPLICATION_QUIT {}`
and `RESIZED {width:u16, height:u16}`. -/
inductive system_event_code where
  | EVENT_CODE_APPLICATION_QUIT
  | EVENT_CODE_RESIZED
  deriving DecidableEq, Repr

/-- One call made by a platform layer into the input subsystem, the event bus
or the window system, with its arguments.  The key of `input_process_key` is
`none` when the argument is the result of a `translate_keycode` that reached
its closing brace without a `return`.  `event_fire` records the code and the
first two `u16` slots of the payload; the sender is always `0`. -/
inductive Call where
  | input_process_key (key : Option Nat) (pressed : Bool)
  | input_process_button (button : Nat) (pressed : Bool)
  | input_process_mouse_move (x : Int) (y : Int)
  | input_process_mouse_wheel (z_delta : Int)
  | event_fire (code : system_event_code) (u16_0 : Nat) (u16_1 : Nat)
  | PostQuitMessage (exit_code : Int)
  deriving DecidableEq, Repr

/-- What one call of `platform_pump_messages` did: the value returned, the
calls made in program order, and the native events left in the queue. -/
structure pump_result (ε : Type) where
  still_running : Bool
  calls : List Call
  pending : List ε

namespace Linux

/-- Response type `XCB_KEY_PRESS` of `xcb/xproto.h`. -/
def XCB_KEY_PRESS : Nat := 2

/-- Response type `XCB_KEY_RELEASE` of `xcb/xproto.h`. -/
def XCB_KEY_RELEASE : Nat := 3

/-- Response type `XCB_BUTTON_PRESS` of `xcb/xproto.h`. -/
def XCB_BUTTON_PRESS : Nat := 4

/-- Response type `XCB_BUTTON_RELEASE` of `xcb/xproto.h`. -/
def XCB_BUTTON_RELEASE : Nat := 5

/-- Response type `XCB_MOTION_NOTIFY` of `xcb/xproto.h`. -/
def XCB_MOTION_NOTIFY : Nat := 6

/-- Response type `XCB_CONFIGURE_NOTIFY` of `xcb/xproto.h`. -/
def XCB_CONFIGURE_NOTIFY : Nat := 22

/-- Response type `XCB_CLIENT_MESSAGE` of `xcb/xproto.h`. -/
def XCB_CLIENT_MESSAGE : Nat := 33

/-- A native event, with the fields the pump reads through its casts:
`response_type` and `detail` (`u8`), `event_x`/`event_y` of a motion event
(`i16`), `width`/`height` of a configure event (`u16`) and `data.data32[0]`
of a client message (`u32`). -/
structure xcb_generic_event_t where
  response_type : Nat
  detail : Nat
  event_x : Int
  event_y : Int
  width : Nat
  height : Nat
  data32_0 : Nat
  deriving DecidableEq, Repr

/-- The fields of `platform_state` the pump reads: the atom `wm_delete_win`
and the key symbols `syms`, given as the keysym that
`xcb_key_symbols_get_keysym(syms, detail, 0)` returns for each keycode. -/
structure platform_state where
  wm_delete_win : Nat
  syms : Nat → Nat

/-- The library call `xcb_poll_for_event`: the next queued event, or `NULL`
(`none`) at once when the queue is empty. -/
def xcb_poll_for_event (queue : List xcb_generic_event_t) :
    Option xcb_generic_event_t × List xcb_generic_event_t :=
  match queue with
  | [] => (none, [])
  | e :: rest => (some e, rest)

/-- The function `internal_poll_for_event`: with a state pointer it stores the
polled event in `*event`, without one it leaves `*event` as it was; the `b8`
it returns is whether `*event` is non-null.  The result is the new `*event`
and the queue left. -/
def internal_poll_for_event (state_ptr : Option platform_state)
    (queue : List xcb_generic_event_t) (event : Option xcb_generic_event_t) :
    Option xcb_generic_event_t × List xcb_generic_event_t :=
  match state_ptr with
  | some _ => xcb_poll_for_event queue
  | none => (event, queue)

/-- The body of `case XCB_BUTTON_RELEASE` of the pump's switch. -/
def case_XCB_BUTTON_RELEASE (event : xcb_generic_event_t) : List Call :=
  [Call.input_process_button event.detail false]

/-- The body of `case XCB_BUTTON_PRESS` of the pump's switch.  The case has no
`break`, so control continues into `case XCB_BUTTON_RELEASE`. -/
def case_XCB_BUTTON_PRESS (event : xcb_generic_event_t) : List Call :=
  (if event.detail > 3 then
      [Call.input_process_mouse_wheel (if event.detail = 4 then -1 else 1)]
    else
      [Call.input_process_button event.detail true])
    ++ case_XCB_BUTTON_RELEASE event

/-- The `switch (event->response_type & ~0x80)` of `platform_pump_messages`
for one event: the calls it makes and the new value of `quit_flagged`.  The
field `response_type` is a `u8`, on which `& ~0x80` clears bit 7 and is the
same as `&&& 0x7f`. -/
def dispatch_event (st : platform_state) (event : xcb_generic_event_t)
    (quit_flagged : Bool) : List Call × Bool :=
  let t := event.response_type &&& 0x7f
  if t = XCB_KEY_PRESS then
    ([Call.input_process_key (some (translate_keycode (st.syms event.detail))) true],
      quit_flagged)
  else if t = XCB_KEY_RELEASE then
    ([Call.input_process_key (some (translate_keycode (st.syms event.detail))) false],
      quit_flagged)
  else if t = XCB_BUTTON_PRESS then
    (case_XCB_BUTTON_PRESS event, quit_flagged)
  else if t = XCB_BUTTON_RELEASE then
    (case_XCB_BUTTON_RELEASE event, quit_flagged)
  else if t = XCB_MOTION_NOTIFY then
    ([Call.input_process_mouse_move event.event_x event.event_y], quit_flagged)
  else if t = XCB_CONFIGURE_NOTIFY then
    ([Call.event_fire system_event_code.EVENT_CODE_RESIZED event.width event.height],
      quit_flagged)
  else if t = XCB_CLIENT_MESSAGE then
    ([], if event.data32_0 = st.wm_delete_win then true else quit_flagged)
  else
    ([], quit_flagged)

set_option linter.unusedVariables false in
/-- The loop `while (internal_poll_for_event(&event)) { switch ...; free(event); }`
of `platform_pump_messages`, entered with a non-null state pointer, followed
by `return !quit_flagged;`. -/
def pump_loop (st : platform_state) (queue : List xcb_generic_event_t)
    (event : Option xcb_generic_event_t) (quit_flagged : Bool) (calls : List Call) :
    pump_result xcb_generic_event_t :=
  match h : internal_poll_for_event (some st) queue event with
  | (some e, rest) =>
    pump_loop st rest (some e) (dispatch_event st e quit_flagged).2
      (calls ++ (dispatch_event st e quit_flagged).1)
  | (none, rest) => ⟨!quit_flagged, calls, rest⟩
termination_by queue.length
decreasing_by
  cases queue with
  | nil => simp [internal_poll_for_event, xcb_poll_for_event] at h
  | cons a q =>
    simp only [internal_poll_for_event, xcb_poll_for_event, Prod.mk.injEq] at h
    rw [← h.2]
    simp

/-- The function `platform_pump_messages` of `platform_linux.c`; `queue` is
the connection's queue of pending events. -/
def platform_pump_messages (state_ptr : Option platform_state)
    (queue : List xcb_generic_event_t) : pump_result xcb_generic_event_t :=
  match state_ptr with
  | some st => pump_loop st queue none false []
  | none => ⟨true, [], queue⟩

end Linux

namespace Win32

/-- Message `WM_DESTROY` of `winuser.h`. -/
def WM_DESTROY : Nat := 0x0002

/-- Message `WM_SIZE` of `winuser.h`. -/
def WM_SIZE : Nat := 0x0005

/-- Message `WM_CLOSE` of `winuser.h`. -/
def WM_CLOSE : Nat := 0x0010

/-- Message `WM_ERASEBKGND` of `winuser.h`. -/
def WM_ERASEBKGND : Nat := 0x0014

/-- Message `WM_KEYDOWN` of `winuser.h`. -/
def WM_KEYDOWN : Nat := 0x0100

/-- Message `WM_KEYUP` of `winuser.h`. -/
def WM_KEYUP : Nat := 0x0101

/-- Message `WM_SYSKEYDOWN` of `winuser.h`. -/
def WM_SYSKEYDOWN : Nat := 0x0104

/-- Message `WM_SYSKEYUP` of `winuser.h`. -/
def WM_SYSKEYUP : Nat := 0x0105

/-- Message `WM_MOUSEMOVE` of `winuser.h`. -/
def WM_MOUSEMOVE : Nat := 0x0200

/-- Message `WM_LBUTTONDOWN` of `winuser.h`. -/
def WM_LBUTTONDOWN : Nat := 0x0201

/-- Message `WM_LBUTTONUP` of `winuser.h`. -/
def WM_LBUTTONUP : Nat := 0x0202

/-- Message `WM_RBUTTONDOWN` of `winuser.h`. -/
def WM_RBUTTONDOWN : Nat := 0x0204

/-- Message `WM_RBUTTONUP` of `winuser.h`. -/
def WM_RBUTTONUP : Nat := 0x0205

/-- Message `WM_MBUTTONDOWN` of `winuser.h`. -/
def WM_MBUTTONDOWN : Nat := 0x0207

/-- Message `WM_MBUTTONUP` of `winuser.h`. -/
def WM_MBUTTONUP : Nat := 0x0208

/-- Message `WM_MOUSEWHEEL` of `winuser.h`. -/
def WM_MOUSEWHEEL : Nat := 0x020A

/-- Virtual key `VK_SHIFT` of `winuser.h`. -/
def VK_SHIFT : Nat := 0x10

/-- Virtual key `VK_CONTROL` of `winuser.h`. -/
def VK_CONTROL : Nat := 0x11

/-- Virtual key `VK_MENU` of `winuser.h`. -/
def VK_MENU : Nat := 0x12

/-- Key flag `KF_EXTENDED` of `winuser.h`. -/
def KF_EXTENDED : Nat := 0x0100

/-- The value of a 16-bit word read as a `short`. -/
def as_short (word : Nat) : Int :=
  if word % 65536 < 32768 then (word % 65536 : Nat) else (word % 65536 : Nat) - 65536

/-- The macro `LOWORD` of `minwindef.h`. -/
def LOWORD (l : Nat) : Nat := l &&& 0xffff

/-- The macro `HIWORD` of `minwindef.h`. -/
def HIWORD (l : Nat) : Nat := (l >>> 16) &&& 0xffff

/-- The macro `GET_X_LPARAM` of `windowsx.h`. -/
def GET_X_LPARAM (lp : Nat) : Int := as_short (LOWORD lp)

/-- The macro `GET_Y_LPARAM` of `windowsx.h`. -/
def GET_Y_LPARAM (lp : Nat) : Int := as_short (HIWORD lp)

/-- The macro `GET_WHEEL_DELTA_WPARAM` of `winuser.h`. -/
def GET_WHEEL_DELTA_WPARAM (wp : Nat) : Int := as_short (HIWORD wp)

/-- The structure `RECT` of `windef.h` (`LONG` fields). -/
structure RECT where
  left : Int
  top : Int
  right : Int
  bottom : Int
  deriving DecidableEq, Repr

/-- What the window system answers while one message is handled:
`MapVirtualKey(VK_LSHIFT, MAPVK_VK_TO_VSC)` and the rectangle that
`GetClientRect(hwnd, &r)` stores. -/
structure native_answers where
  left_shift : Nat
  client_rect : RECT
  deriving DecidableEq, Repr

/-- The fields of `platform_state` of `platform_win32.c`, as handles. -/
structure platform_state where
  h_instance : Nat
  hwnd : Nat

/-- A queued `MSG` for the engine window: `message`, `wParam` and `lParam`,
the last two as 64-bit patterns. -/
structure MSG where
  message : Nat
  wParam : Nat
  lParam : Nat
  deriving DecidableEq, Repr

/-- What `win32_process_message` did: its calls in program order and the
`LRESULT` it returned, `none` standing for the value of `DefWindowProcA`. -/
structure wndproc_result where
  calls : List Call
  result : Option Int

/-- The test `(HIWORD(l_param) & KF_EXTENDED) == KF_EXTENDED`. -/
def is_extended (l_param : Nat) : Bool :=
  decide (HIWORD l_param &&& KF_EXTENDED = KF_EXTENDED)

/-- The expression `((l_param & (0xFF << 16)) >> 16)`. -/
def scancode (l_param : Nat) : Nat :=
  (l_param &&& (0xFF <<< 16)) >>> 16

/-- The key case of `win32_process_message`: the virtual-key code handed to
`translate_keycode` once a generic Alt, Shift or Control is replaced. -/
def disambiguate_key (na : native_answers) (w_param l_param : Nat) : Nat :=
  let key := w_param % 65536
  if w_param = VK_MENU then
    if is_extended l_param then 0xa5 else 0xa4
  else if w_param = VK_SHIFT then
    if scancode l_param = na.left_shift then 0xa0 else 0xa1
  else if w_param = VK_CONTROL then
    if is_extended l_param then 0xa3 else 0xa2
  else key

/-- The inner `switch (msg)` of the mouse-button case, started from
`mouse_button = BUTTON_MAX_BUTTONS`. -/
def mouse_button_of (msg : Nat) : Nat :=
  if msg = WM_LBUTTONDOWN ∨ msg = WM_LBUTTONUP then BUTTON_LEFT
  else if msg = WM_MBUTTONDOWN ∨ msg = WM_MBUTTONUP then BUTTON_MIDDLE
  else if msg = WM_RBUTTONDOWN ∨ msg = WM_RBUTTONUP then BUTTON_RIGHT
  else BUTTON_MAX_BUTTONS

/-- The window procedure `win32_process_message` of `platform_win32.c`. -/
def win32_process_message (na : native_answers) (msg w_param l_param : Nat) :
    wndproc_result :=
  if msg = WM_ERASEBKGND then
    ⟨[], some 1⟩
  else if msg = WM_CLOSE then
    ⟨[Call.event_fire system_event_code.EVENT_CODE_APPLICATION_QUIT 0 0], some 0⟩
  else if msg = WM_DESTROY then
    ⟨[Call.PostQuitMessage 0], some 0⟩
  else if msg = WM_SIZE then
    let width := ((na.client_rect.right - na.client_rect.left) % 4294967296).toNat
    let height := ((na.client_rect.bottom - na.client_rect.top) % 4294967296).toNat
    ⟨[Call.event_fire system_event_code.EVENT_CODE_RESIZED (width % 65536) (height % 65536)],
      none⟩
  else if msg = WM_KEYDOWN ∨ msg = WM_SYSKEYDOWN ∨ msg = WM_KEYUP ∨ msg = WM_SYSKEYUP then
    let pressed := decide (msg = WM_KEYDOWN ∨ msg = WM_SYSKEYDOWN)
    let key := disambiguate_key na w_param l_param
    ⟨[Call.input_process_key (translate_keycode key) pressed], some 0⟩
  else if msg = WM_MOUSEMOVE then
    ⟨[Call.input_process_mouse_move (GET_X_LPARAM l_param) (GET_Y_LPARAM l_param)], none⟩
  else if msg = WM_MOUSEWHEEL then
    let z_delta := GET_WHEEL_DELTA_WPARAM w_param
    if z_delta ≠ 0 then
      ⟨[Call.input_process_mouse_wheel (if z_delta < 0 then -1 else 1)], none⟩
    else
      ⟨[], none⟩
  else if msg = WM_LBUTTONDOWN ∨ msg = WM_MBUTTONDOWN ∨ msg = WM_RBUTTONDOWN ∨
      msg = WM_LBUTTONUP ∨ msg = WM_MBUTTONUP ∨ msg = WM_RBUTTONUP then
    let pressed := decide (msg = WM_LBUTTONDOWN ∨ msg = WM_RBUTTONDOWN ∨ msg = WM_MBUTTONDOWN)
    let mouse_button := mouse_button_of msg
    if mouse_button ≠ BUTTON_MAX_BUTTONS then
      ⟨[Call.input_process_button mouse_button pressed], none⟩
    else
      ⟨[], none⟩
  else
    ⟨[], none⟩

/-- The library call `PeekMessageA(&message, NULL, 0, 0, PM_REMOVE)`: the next
queued message, removed from the queue, or none at once when it is empty.
Each queued message comes with the answers the window system gives while it
is handled. -/
def PeekMessageA (queue : List (native_answers × MSG)) :
    Option (native_answers × MSG) × List (native_answers × MSG) :=
  match queue with
  | [] => (none, [])
  | m :: rest => (some m, rest)

/-- The library call `DispatchMessageA`, which hands the message to the window
procedure registered for the window class, `win32_process_message`. -/
def DispatchMessageA (m : native_answers × MSG) : List Call :=
  (win32_process_message m.1 m.2.message m.2.wParam m.2.lParam).calls

set_option linter.unusedVariables false in
/-- The loop `while (PeekMessageA(...)) { TranslateMessage; DispatchMessageA; }`
of `platform_pump_messages`; the result is the calls made and the queue left. -/
def pump_loop (queue : List (native_answers × MSG)) (calls : List Call) :
    List Call × List (native_answers × MSG) :=
  match h : PeekMessageA queue with
  | (some message, rest) => pump_loop rest (calls ++ DispatchMessageA message)
  | (none, rest) => (calls, rest)
termination_by queue.length
decreasing_by
  cases queue with
  | nil => simp [PeekMessageA] at h
  | cons a q =>
    simp only [PeekMessageA, Prod.mk.injEq] at h
    rw [← h.2]
    simp

/-- The function `platform_pump_messages` of `platform_win32.c`. -/
def platform_pump_messages (state_ptr : Option platform_state)
    (queue : List (native_answers × MSG)) : pump_result (native_answers × MSG) :=
  match state_ptr with
  | some _ =>
    let r := pump_loop queue []
    ⟨true, r.1, r.2⟩
  | none => ⟨true, [], queue⟩

end Win32

/-! ## The input state store (`core/input.c`, declared in `core/input.h`) -/

/-- Modelled from the spec: `core/input.c` is not among the sources, only its
declarations in `core/input.h` are.  `KeyboardState`, a fixed-size mapping from
key to "is pressed"; the slots at or above `KEYS_MAX_KEYS` are never written. -/
structure keyboard_state where
  keys : Nat → Bool

/-- Modelled from the spec: `core/input.c` is not among the sources.
`MouseState`, a mapping from mouse button to "is pressed" plus the signed
position `(x, y)` in window-client coordinates. -/
structure mouse_state where
  x : Int
  y : Int
  buttons : Nat → Bool

/-- Modelled from the spec: `core/input.c` is not among the sources.  The input
state store: the `current` and `previous` instances of the keyboard and of the
mouse state. -/
structure input_state where
  keyboard_current : keyboard_state
  keyboard_previous : keyboard_state
  mouse_current : mouse_state
  mouse_previous : mouse_state

/-- Modelled from the spec: `core/input.c` is not among the sources.  The store
right after `input_system_initialize`: both state pairs zeroed, every key and
button released. -/
def input_system_initialize : input_state :=
  ⟨⟨fun _ => false⟩, ⟨fun _ => false⟩, ⟨0, 0, fun _ => false⟩, ⟨0, 0, fun _ => false⟩⟩

/-- Modelled from the spec: `core/input.c` is not among the sources.
`input_update`, the spec's `advance_frame()`: copies the `current` keyboard and
mouse state into `previous`.  The `delta_time` argument plays no part. -/
def input_update (s : input_state) : input_state :=
  ⟨s.keyboard_current, s.keyboard_current, s.mouse_current, s.mouse_current⟩

/-- Modelled from the spec: `core/input.c` is not among the sources.
`input_process_key`, the spec's `set_key(key, pressed)`: overwrites
`current[key]`; a key out of the valid enumeration range is ignored. -/
def input_process_key (s : input_state) (key : Nat) (pressed : Bool) : input_state :=
  if key < KEYS_MAX_KEYS then
    ⟨⟨fun k => if k = key then pressed else s.keyboard_current.keys k⟩,
      s.keyboard_previous, s.mouse_current, s.mouse_previous⟩
  else s

/-- Modelled from the spec: `core/input.c` is not among the sources.
`input_process_button`, the spec's `set_button(button, pressed)`: the same
contract as `set_key`, for mouse buttons. -/
def input_process_button (s : input_state) (button : Nat) (pressed : Bool) : input_state :=
  if button < BUTTON_MAX_BUTTONS then
    ⟨s.keyboard_current, s.keyboard_previous,
      ⟨s.mouse_current.x, s.mouse_current.y,
        fun b => if b = button then pressed else s.mouse_current.buttons b⟩,
      s.mouse_previous⟩
  else s

/-- Modelled from the spec: `core/input.c` is not among the sources.
`input_process_mouse_move`, the spec's `set_mouse_position(x, y)`: copies the
`current` position into `previous`, then overwrites `current` with the new
position. -/
def input_process_mouse_move (s : input_state) (x y : Int) : input_state :=
  ⟨s.keyboard_current, s.keyboard_previous,
    ⟨x, y, s.mouse_current.buttons⟩,
    ⟨s.mouse_current.x, s.mouse_current.y, s.mouse_previous.buttons⟩⟩

/-- Modelled from the spec: `core/input.c` is not among the sources.
`input_process_mouse_wheel`, the spec's `set_mouse_wheel(delta)`: a transient
signal, not stored in the state. -/
def input_process_mouse_wheel (s : input_state) (_z_delta : Int) : input_state := s

/-- Modelled from the spec: `core/input.c` is not among the sources.
`input_is_key_down`, the spec's `is_down` for keys: reads `current` without
mutation.  The result is the answer and the store after the call. -/
def input_is_key_down (s : input_state) (key : Nat) : Bool × input_state :=
  (s.keyboard_current.keys key, s)

/-- Modelled from the spec: `core/input.c` is not among the sources.
`input_is_key_up`, the logical negation of `is_down`. -/
def input_is_key_up (s : input_state) (key : Nat) : Bool × input_state :=
  (!s.keyboard_current.keys key, s)

/-- Modelled from the spec: `core/input.c` is not among the sources.
`input_was_key_down`, the spec's `was_down` for keys: reads `previous` without
mutation. -/
def input_was_key_down (s : input_state) (key : Nat) : Bool × input_state :=
  (s.keyboard_previous.keys key, s)

/-- Modelled from the spec: `core/input.c` is not among the sources.
`input_was_key_up`, the logical negation of `was_down`. -/
def input_was_key_up (s : input_state) (key : Nat) : Bool × input_state :=
  (!s.keyboard_previous.keys key, s)

/-- Modelled from the spec: `core/input.c` is not among the sources.
`input_is_button_down`, the spec's `is_down` for mouse buttons. -/
def input_is_button_down (s : input_state) (button : Nat) : Bool × input_state :=
  (s.mouse_current.buttons button, s)

/-- Modelled from the spec: `core/input.c` is not among the sources.
`input_is_button_up`, the logical negation of `is_down`. -/
def input_is_button_up (s : input_state) (button : Nat) : Bool × input_state :=
  (!s.mouse_current.buttons button, s)

/-- Modelled from the spec: `core/input.c` is not among the sources.
`input_was_button_down`, the spec's `was_down` for mouse buttons. -/
def input_was_button_down (s : input_state) (button : Nat) : Bool × input_state :=
  (s.mouse_previous.buttons button, s)

/-- Modelled from the spec: `core/input.c` is not among the sources.
`input_was_button_up`, the logical negation of `was_down`. -/
def input_was_button_up (s : input_state) (button : Nat) : Bool × input_state :=
  (!s.mouse_previous.buttons button, s)

/-- Modelled from the spec: `core/input.c` is not among the sources.
`input_get_mouse_position`, the spec's `get_mouse_position() -> (x,y)`. -/
def input_get_mouse_position (s : input_state) : (Int × Int) × input_state :=
  ((s.mouse_current.x, s.mouse_current.y), s)

/-- Modelled from the spec: `core/input.c` is not among the sources.
`input_get_previous_mouse_position`, the spec's
`get_previous_mouse_position() -> (x,y)`. -/
def input_get_previous_mouse_position (s : input_state) : (Int × Int) × input_state :=
  ((s.mouse_previous.x, s.mouse_previous.y), s)

/-! ## Startup of the Linux platform layer -/

namespace Linux

/-- Modelled from the spec: `core/logger.h` is not among the sources.  The log
lines of `platform_system_startup`, one constructor per `KFATAL` / `KERROR`
statement of the function, named by level and in source order:
"Failed to connect to X server via XCB.", "XKB extension not available on host
X11 server.", "Couldn't load the xcb-xkb extension.", "The XKB extension is not
supported on this X server.", "Failed to set XKB per-client flags, not using
detectable repeat. error code: %u" and "An error occurred when flusing the
stream: %d". -/
inductive startup_log where
  | KFATAL_connect
  | KFATAL_xkb_not_available
  | KFATAL_load_xcb_xkb
  | KFATAL_xkb_not_supported
  | KERROR_per_client_flags (major_code : Nat)
  | KFATAL_flush (stream_result : Int)
  deriving DecidableEq, Repr

/-- The XCB library calls of `platform_system_startup`.  `xcb_create_window`
carries the position and size it is given. -/
inductive native_call where
  | xcb_connect
  | xcb_connection_has_error
  | xcb_get_extension_data
  | xcb_xkb_use_extension
  | xcb_xkb_use_extension_reply
  | xcb_xkb_per_client_flags
  | xcb_xkb_per_client_flags_reply
  | xcb_key_symbols_alloc
  | xcb_get_setup
  | xcb_setup_roots_iterator
  | xcb_generate_id
  | xcb_create_window (x : Int) (y : Int) (width : Nat) (height : Nat)
  | xcb_change_property
  | xcb_intern_atom
  | xcb_intern_atom_reply
  | xcb_map_window
  | xcb_flush
  deriving DecidableEq, Repr

/-- What the X server and the XCB library answer during startup:
whether `xcb_connection_has_error` is non-zero, whether
`xcb_get_extension_data` gives a reply, the reply of
`xcb_xkb_use_extension_reply` (`none` for a null reply, else its `supported`
field), the error that `xcb_xkb_per_client_flags_reply` stores (`none` for a
null error, else its `major_code`), and the result of `xcb_flush`. -/
structure startup_answers where
  connection_has_error : Bool
  ext_reply : Bool
  use_ext_reply : Option Bool
  pcf_error : Option Nat
  stream_result : Int
  deriving DecidableEq, Repr

/-- What one call of `platform_system_startup` did: the value returned, the
value stored in `*memory_requirement`, the module's `state_ptr` after the call
(a buffer address, `none` for null), the lines logged and the library calls
made, both in program order. -/
structure startup_result where
  result : Bool
  memory_requirement : Nat
  state_ptr : Option Nat
  log : List startup_log
  native_calls : List native_call
  deriving DecidableEq, Repr

/-- The conversion `(i16)x` of an `i32`. -/
def as_i16 (x : Int) : Int := (x + 32768) % 65536 - 32768

/-- The function `platform_system_startup` of `platform_linux.c`.
`sizeof_platform_state` is `sizeof(platform_state)`, `state_ptr` the module's
pointer before the call and `state` the buffer passed (`none` for `0`).  The
application name only feeds the window title and is left out. -/
def platform_system_startup (sizeof_platform_state : Nat) (state_ptr : Option Nat)
    (state : Option Nat) (x y width height : Int) (answers : startup_answers) :
    startup_result :=
  match state with
  | none => ⟨true, sizeof_platform_state, state_ptr, [], []⟩
  | some buffer =>
    let calls1 := [native_call.xcb_connect, native_call.xcb_connection_has_error]
    if answers.connection_has_error then
      ⟨false, sizeof_platform_state, some buffer, [startup_log.KFATAL_connect], calls1⟩
    else
      let calls2 := calls1 ++ [native_call.xcb_get_extension_data]
      if !answers.ext_reply then
        ⟨false, sizeof_platform_state, some buffer, [startup_log.KFATAL_xkb_not_available],
          calls2⟩
      else
        let calls3 := calls2 ++
          [native_call.xcb_xkb_use_extension, native_call.xcb_xkb_use_extension_reply]
        match answers.use_ext_reply with
        | none =>
          ⟨false, sizeof_platform_state, some buffer, [startup_log.KFATAL_load_xcb_xkb],
            calls3⟩
        | some false =>
          ⟨false, sizeof_platform_state, some buffer,
            [startup_log.KFATAL_xkb_not_supported], calls3⟩
        | some true =>
          let calls4 := calls3 ++
            [native_call.xcb_xkb_per_client_flags, native_call.xcb_xkb_per_client_flags_reply]
          match answers.pcf_error with
          | some major_code =>
            ⟨false, sizeof_platform_state, some buffer,
              [startup_log.KERROR_per_client_flags major_code], calls4⟩
          | none =>
            let calls5 := calls4 ++
              [native_call.xcb_key_symbols_alloc, native_call.xcb_get_setup,
                native_call.xcb_setup_roots_iterator, native_call.xcb_generate_id,
                native_call.xcb_create_window (as_i16 x) (as_i16 y)
                  (width % 65536).toNat (height % 65536).toNat,
                native_call.xcb_change_property,
                native_call.xcb_intern_atom, native_call.xcb_intern_atom_reply,
                native_call.xcb_intern_atom, native_call.xcb_intern_atom_reply,
                native_call.xcb_change_property, native_call.xcb_map_window,
                native_call.xcb_flush]
            if answers.stream_result ≤ 0 then
              ⟨false, sizeof_platform_state, some buffer,
                [startup_log.KFATAL_flush answers.stream_result], calls5⟩
            else
              ⟨true, sizeof_platform_state, some buffer, [], calls5⟩

end Linux

/-! ## Startup of the Windows platform layer -/

namespace Win32

/-- Modelled from the spec: `core/logger.h` is not among the sources.  The one
log line of the Windows `platform_system_startup`, its `KFATAL` statement
"Window creation failed!". -/
inductive startup_log where
  | KFATAL_window_creation
  deriving DecidableEq, Repr

/-- The Win32 calls of `platform_system_startup` and of `clock_setup`.
`CreateWindowExA` carries the window position and size it is given, as `u32`
values. -/
inductive native_call where
  | GetModuleHandleA
  | LoadIcon
  | LoadCursor
  | RegisterClassA
  | MessageBoxA
  | AdjustWindowRectEx
  | CreateWindowExA (window_x : Nat) (window_y : Nat) (window_width : Nat)
      (window_height : Nat)
  | ShowWindow
  | QueryPerformanceFrequency
  | QueryPerformanceCounter
  deriving DecidableEq, Repr

/-- What the window system answers during startup: whether `RegisterClassA`
returns a non-zero atom, the border rectangle that `AdjustWindowRectEx` stores,
and the handle that `CreateWindowExA` returns (`0` on failure). -/
structure startup_answers where
  register_class : Bool
  border_rect : RECT
  handle : Nat
  deriving DecidableEq, Repr

/-- What one call of `platform_system_startup` did: the value returned, the
value stored in `*memory_requirement`, the module's `state_ptr` after the call
(a buffer address, `none` for null), the lines logged and the Win32 calls made,
both in program order. -/
structure startup_result where
  result : Bool
  memory_requirement : Nat
  state_ptr : Option Nat
  log : List startup_log
  native_calls : List native_call
  deriving DecidableEq, Repr

/-- The function `clock_setup` of `platform_win32.c`, as the calls it makes. -/
def clock_setup : List native_call :=
  [native_call.QueryPerformanceFrequency, native_call.QueryPerformanceCounter]

/-- The function `platform_system_startup` of `platform_win32.c`.
`sizeof_platform_state` is `sizeof(platform_state)`, `state_ptr` the module's
pointer before the call and `state` the buffer passed (`none` for `0`).  The
window position and size are `u32` sums, reduced modulo `2^32`.  The
application name only feeds the window title and is left out. -/
def platform_system_startup (sizeof_platform_state : Nat) (state_ptr : Option Nat)
    (state : Option Nat) (x y width height : Int) (answers : startup_answers) :
    startup_result :=
  match state with
  | none => ⟨true, sizeof_platform_state, state_ptr, [], []⟩
  | some buffer =>
    let calls1 := [native_call.GetModuleHandleA, native_call.LoadIcon,
      native_call.LoadCursor, native_call.RegisterClassA]
    if !answers.register_class then
      ⟨false, sizeof_platform_state, some buffer, [], calls1 ++ [native_call.MessageBoxA]⟩
    else
      let window_x := ((x + answers.border_rect.left) % 4294967296).toNat
      let window_y := ((y + answers.border_rect.top) % 4294967296).toNat
      let window_width :=
        ((width + (answers.border_rect.right - answers.border_rect.left)) % 4294967296).toNat
      let window_height :=
        ((height + (answers.border_rect.bottom - answers.border_rect.top)) % 4294967296).toNat
      let calls2 := calls1 ++ [native_call.AdjustWindowRectEx,
        native_call.CreateWindowExA window_x window_y window_width window_height]
      if answers.handle = 0 then
        ⟨false, sizeof_platform_state, some buffer, [startup_log.KFATAL_window_creation],
          calls2 ++ [native_call.MessageBoxA]⟩
      else
        ⟨true, sizeof_platform_state, some buffer, [],
          calls2 ++ [native_call.ShowWindow] ++ clock_setup⟩

end Win32

/-! ## `resources/loaders/binary_loader.c` -/

/-- Modelled from the spec: `resources/resource_types.h` is not among the
sources.  The structure `resource`, with the fields that `binary_loader.c`
names; `name`, `full_path` and `data` are pointers, given as addresses with `0`
for null. -/
structure resource where
  loader_id : Nat
  name : Nat
  full_path : Nat
  data_size : Nat
  data : Nat
  deriving DecidableEq, Repr

/-- What the collaborators of `binary_loader_load` answer: the pointer that
`string_duplicate` returns, whether `filesystem_open` succeeds, the size that
`filesystem_size` stores (`none` when it fails), the pointer that `kallocate`
returns, and the count that `filesystem_read_all_bytes` stores in `read_size`
(`none` when it fails). -/
structure loader_answers where
  string_duplicate : Nat
  filesystem_open : Bool
  filesystem_size : Option Nat
  kallocate : Nat
  filesystem_read_all_bytes : Option Nat
  deriving DecidableEq, Repr

/-- The calls of `binary_loader_load` into its collaborators, with the two
`KERROR` statements; `kallocate` carries the byte count asked for. -/
inductive loader_call where
  | string_format
  | string_duplicate
  | filesystem_open
  | KERROR_unable_to_open
  | filesystem_size
  | KERROR_unable_to_read
  | filesystem_close
  | kallocate (size : Nat)
  | filesystem_read_all_bytes
  deriving DecidableEq, Repr

/-- What one call of `binary_loader_load` did: the value returned, the contents
of `*out_resource` after the call (`none` for a null pointer) and the calls
made in program order. -/
structure load_result where
  result : Bool
  out_resource : Option resource
  calls : List loader_call
  deriving DecidableEq, Repr

/-- The function `binary_loader_load` of `binary_loader.c`.  `self` and `name`
are addresses, `0` for null; `out_resource` is the contents of the pointed-to
`resource`, `none` for a null pointer. -/
def binary_loader_load (self name : Nat) (out_resource : Option resource)
    (answers : loader_answers) : load_result :=
  match out_resource with
  | none => ⟨false, none, []⟩
  | some r =>
    if self = 0 ∨ name = 0 then ⟨false, some r, []⟩
    else
      let r1 : resource := ⟨r.loader_id, r.name, answers.string_duplicate, r.data_size, r.data⟩
      let calls1 := [loader_call.string_format, loader_call.string_duplicate,
        loader_call.filesystem_open]
      if !answers.filesystem_open then
        ⟨false, some r1, calls1 ++ [loader_call.KERROR_unable_to_open]⟩
      else
        let calls2 := calls1 ++ [loader_call.filesystem_size]
        match answers.filesystem_size with
        | none =>
          ⟨false, some r1,
            calls2 ++ [loader_call.KERROR_unable_to_read, loader_call.filesystem_close]⟩
        | some file_size =>
          let calls3 := calls2 ++
            [loader_call.kallocate (file_size % 18446744073709551616),
              loader_call.filesystem_read_all_bytes]
          match answers.filesystem_read_all_bytes with
          | none =>
            ⟨false, some r1,
              calls3 ++ [loader_call.KERROR_unable_to_read, loader_call.filesystem_close]⟩
          | some read_size =>
            ⟨true, some ⟨r1.loader_id, name, r1.full_path, read_size, answers.kallocate⟩,
              calls3 ++ [loader_call.filesystem_close]⟩

/-! ## The table search -/

/-- A search that returns an index returns the first one, from its start
index on, whose slot holds the code. -/
theorem lookup_loop_eq_some (table : List Nat) (code : Nat) :
    ∀ (remaining i k : Nat), lookup_loop table code remaining i = some k →
      i ≤ k ∧ k < i + remaining ∧ table.getD k 0 = code ∧
        ∀ j, i ≤ j → j < k → table.getD j 0 ≠ code := by
  intro remaining
  induction remaining with
  | zero => intro i k h; simp [lookup_loop] at h
  | succ r ih =>
    intro i k h
    rw [lookup_loop] at h
    by_cases hc : table.getD i 0 = code
    · rw [if_pos hc] at h
      have hk : i = k := by simpa using h
      subst hk
      exact ⟨le_refl _, by omega, hc, fun j h1 h2 => by omega⟩
    · rw [if_neg hc] at h
      obtain ⟨h1, h2, h3, h4⟩ := ih (i + 1) k h
      refine ⟨by omega, by omega, h3, ?_⟩
      intro j hj1 hj2
      by_cases hji : j = i
      · subst hji; exact hc
      · exact h4 j (by omega) hj2

/-- A search runs to completion exactly when no slot it visits holds the code. -/
theorem lookup_loop_eq_none_iff (table : List Nat) (code : Nat) :
    ∀ (remaining i : Nat), lookup_loop table code remaining i = none ↔
      ∀ j, i ≤ j → j < i + remaining → table.getD j 0 ≠ code := by
  intro remaining
  induction remaining with
  | zero => intro i; simp [lookup_loop]; intro j h1 h2; omega
  | succ r ih =>
    intro i
    rw [lookup_loop]
    by_cases hc : table.getD i 0 = code
    · rw [if_pos hc]
      simp only [reduceCtorEq, false_iff, not_forall]
      exact ⟨i, le_refl _, by omega, fun h => h hc⟩
    · rw [if_neg hc, ih (i + 1)]
      constructor
      · intro h j hj1 hj2
        by_cases hji : j = i
        · subst hji; exact hc
        · exact h j (by omega) (by omega)
      · intro h j hj1 hj2
        exact h j (by omega) (by omega)

/-- A code held by some slot of the searched range is found. -/
theorem lookup_loop_of_mem (table : List Nat) (code remaining i j : Nat)
    (h1 : i ≤ j) (h2 : j < i + remaining) (h3 : table.getD j 0 = code) :
    ∃ k, lookup_loop table code remaining i = some k := by
  cases h : lookup_loop table code remaining i with
  | some k => exact ⟨k, rfl⟩
  | none => exact absurd h3 ((lookup_loop_eq_none_iff table code remaining i).1 h j h1 h2)

/-- No entry of the Linux table is a lowercase Latin keysym. -/
theorem linux_table_no_lowercase :
    ∀ c ∈ Linux.key_lookup_table, ¬ (c ≥ 0x0061 ∧ c ≤ 0x007a) := by
  decide

/-- On a keysym outside the lowercase Latin range, the Linux translator is the
bare table search. -/
theorem linux_translate_no_fold (c : Nat) (hc : ¬ (c ≥ 0x0061 ∧ c ≤ 0x007a)) :
    Linux.translate_keycode c =
      match lookup_loop Linux.key_lookup_table c KEYS_MAX_KEYS 0 with
      | some i => i
      | none => 0 := by
  unfold Linux.translate_keycode
  simp only [if_neg hc, ite_self]

/-- The Linux translator returns `0` whenever the loop finds no slot. -/
theorem linux_translate_unmapped (x upper : Nat)
    (hup : upper = if x >>> 8 = 0 then
      (if x ≥ 0x0061 ∧ x ≤ 0x007a then x - (0x0061 - 0x0041) else x) else x)
    (hno : ∀ j, j < KEYS_MAX_KEYS → Linux.key_lookup_table.getD j 0 ≠ upper) :
    Linux.translate_keycode x = 0 := by
  unfold Linux.translate_keycode
  have h : lookup_loop Linux.key_lookup_table upper KEYS_MAX_KEYS 0 = none :=
    (lookup_loop_eq_none_iff _ _ _ _).2 (fun j _ hj => hno j (by omega))
  simp only [← hup, h]

/-! ## Claims on the keycode translators -/

/-- C1: table self-consistency in both backends.  For every index
`i < KEYS_MAX_KEYS`, with `c` the entry `i` of a backend's `key_lookup_table`,
`translate_keycode c` returns a key below `KEYS_MAX_KEYS` whose entry in the
same table is `c`; on Windows the function does reach a `return`. -/
theorem translate_table_round_trip (i : Nat) (hi : i < KEYS_MAX_KEYS) :
    (Linux.translate_keycode (Linux.key_lookup_table.getD i 0) < KEYS_MAX_KEYS ∧
      Linux.key_lookup_table.getD
        (Linux.translate_keycode (Linux.key_lookup_table.getD i 0)) 0 =
        Linux.key_lookup_table.getD i 0) ∧
    ∃ k, Win32.translate_keycode (Win32.key_lookup_table.getD i 0) = some k ∧
      k < KEYS_MAX_KEYS ∧
      Win32.key_lookup_table.getD k 0 = Win32.key_lookup_table.getD i 0 := by
  constructor
  · have hlen : i < Linux.key_lookup_table.length := by
      have : Linux.key_lookup_table.length = KEYS_MAX_KEYS := by decide
      omega
    have hmem : Linux.key_lookup_table.getD i 0 ∈ Linux.key_lookup_table := by
      rw [List.getD_eq_getElem _ _ hlen]
      exact List.getElem_mem hlen
    rw [linux_translate_no_fold _ (linux_table_no_lowercase _ hmem)]
    obtain ⟨k, hk⟩ := lookup_loop_of_mem Linux.key_lookup_table
      (Linux.key_lookup_table.getD i 0) KEYS_MAX_KEYS 0 i (Nat.zero_le _) (by omega) rfl
    obtain ⟨_, h2, h3, _⟩ := lookup_loop_eq_some _ _ _ _ _ hk
    simp only [hk]
    exact ⟨by omega, h3⟩
  · obtain ⟨k, hk⟩ := lookup_loop_of_mem Win32.key_lookup_table
      (Win32.key_lookup_table.getD i 0) KEYS_MAX_KEYS 0 i (Nat.zero_le _) (by omega) rfl
    obtain ⟨_, h2, h3, _⟩ := lookup_loop_eq_some _ _ _ _ _ hk
    exact ⟨k, hk, by omega, h3⟩

/-- C1 at slot 3, a placeholder slot of the Linux table and `VK_SHIFT` in the
Windows table. -/
theorem translate_table_round_trip_at_slot_3 :
    3 < KEYS_MAX_KEYS ∧
    (Linux.translate_keycode (Linux.key_lookup_table.getD 3 0) < KEYS_MAX_KEYS ∧
      Linux.key_lookup_table.getD
        (Linux.translate_keycode (Linux.key_lookup_table.getD 3 0)) 0 =
        Linux.key_lookup_table.getD 3 0) ∧
    ∃ k, Win32.translate_keycode (Win32.key_lookup_table.getD 3 0) = some k ∧
      k < KEYS_MAX_KEYS ∧
      Win32.key_lookup_table.getD k 0 = Win32.key_lookup_table.getD 3 0 :=
  ⟨by decide, translate_table_round_trip 3 (by decide)⟩

/-- C2 (the code at the failing input): the keysym `0x0020` of the space bar is
in no slot of the Linux table, it is not a lowercase letter, and
`translate_keycode` returns `0`, the value of `KEY_BACKSPACE`, for it. -/
theorem linux_translate_space_is_backspace :
    (∀ j, j < KEYS_MAX_KEYS → Linux.key_lookup_table.getD j 0 ≠ 0x0020) ∧
    Linux.translate_keycode 0x0020 = keys.KEY_BACKSPACE.val ∧
    keys.KEY_BACKSPACE.val < KEYS_MAX_KEYS := by
  decide

/-- C3: Linux case folding.  A lowercase Latin keysym `c` (`0x61..0x7a`)
translates to the same key as its uppercase form `c - 0x20`, and that key is
`KEY_A + (c - 0x61)`. -/
theorem linux_case_folding (c : Nat) (hlo : 0x61 ≤ c) (hhi : c ≤ 0x7a) :
    Linux.translate_keycode c = Linux.translate_keycode (c - 0x20) ∧
    Linux.translate_keycode (c - 0x20) = keys.KEY_A.val + (c - 0x61) := by
  have h : ∀ d, d < 26 →
      Linux.translate_keycode (0x61 + d) = Linux.translate_keycode (0x61 + d - 0x20) ∧
      Linux.translate_keycode (0x61 + d - 0x20) = keys.KEY_A.val + (0x61 + d - 0x61) := by
    decide
  have := h (c - 0x61) (by omega)
  have hc : 0x61 + (c - 0x61) = c := by omega
  rwa [hc] at this

/-- C3 at the keysym of `'a'`: it translates as `'A'` does, to `KEY_A`. -/
theorem linux_case_folding_at_a :
    Linux.translate_keycode 0x61 = Linux.translate_keycode (0x61 - 0x20) ∧
    Linux.translate_keycode (0x61 - 0x20) = keys.KEY_A.val + (0x61 - 0x61) :=
  linux_case_folding 0x61 (by decide) (by decide)

/-! ## The Linux event pump -/

/-- The pump's loop on an empty queue stops and returns `!quit_flagged`. -/
theorem linux_pump_loop_nil (st : Linux.platform_state)
    (event : Option Linux.xcb_generic_event_t) (quit_flagged : Bool) (calls : List Call) :
    Linux.pump_loop st [] event quit_flagged calls = ⟨!quit_flagged, calls, []⟩ := by
  rw [Linux.pump_loop]
  simp [Linux.internal_poll_for_event, Linux.xcb_poll_for_event]

/-- The pump's loop on a non-empty queue handles the head and goes on with the
rest. -/
theorem linux_pump_loop_cons (st : Linux.platform_state)
    (e : Linux.xcb_generic_event_t) (rest : List Linux.xcb_generic_event_t)
    (event : Option Linux.xcb_generic_event_t) (quit_flagged : Bool) (calls : List Call) :
    Linux.pump_loop st (e :: rest) event quit_flagged calls =
      Linux.pump_loop st rest (some e) (Linux.dispatch_event st e quit_flagged).2
        (calls ++ (Linux.dispatch_event st e quit_flagged).1) := by
  rw [Linux.pump_loop]
  simp [Linux.internal_poll_for_event, Linux.xcb_poll_for_event]

/-- The calls made for one event do not depend on `quit_flagged`. -/
theorem linux_dispatch_calls (st : Linux.platform_state) (e : Linux.xcb_generic_event_t)
    (quit_flagged : Bool) :
    (Linux.dispatch_event st e quit_flagged).1 = (Linux.dispatch_event st e false).1 := by
  unfold Linux.dispatch_event
  simp only []
  split_ifs <;> rfl

/-- The flag after one event: set by a close request, else as before. -/
theorem linux_dispatch_flag (st : Linux.platform_state) (e : Linux.xcb_generic_event_t)
    (quit_flagged : Bool) :
    (Linux.dispatch_event st e quit_flagged).2 =
      (quit_flagged || decide (e.response_type &&& 0x7f = Linux.XCB_CLIENT_MESSAGE ∧
        e.data32_0 = st.wm_delete_win)) := by
  unfold Linux.dispatch_event
  simp only []
  split_ifs <;> simp_all [Linux.XCB_CLIENT_MESSAGE, Linux.XCB_KEY_PRESS, Linux.XCB_KEY_RELEASE,
    Linux.XCB_BUTTON_PRESS, Linux.XCB_BUTTON_RELEASE, Linux.XCB_MOTION_NOTIFY,
    Linux.XCB_CONFIGURE_NOTIFY]

/-- The pump's loop in closed form. -/
theorem linux_pump_loop_eq (st : Linux.platform_state) :
    ∀ (queue : List Linux.xcb_generic_event_t) (event : Option Linux.xcb_generic_event_t)
      (quit_flagged : Bool) (calls : List Call),
      Linux.pump_loop st queue event quit_flagged calls =
        ⟨!(quit_flagged || queue.any (fun e =>
            decide (e.response_type &&& 0x7f = Linux.XCB_CLIENT_MESSAGE ∧
              e.data32_0 = st.wm_delete_win))),
          calls ++ queue.flatMap (fun e => (Linux.dispatch_event st e false).1), []⟩ := by
  intro queue
  induction queue with
  | nil => intro event q calls; simp [linux_pump_loop_nil]
  | cons e rest ih =>
    intro event q calls
    rw [linux_pump_loop_cons, ih, linux_dispatch_flag, linux_dispatch_calls st e q]
    simp [List.flatMap_cons, Bool.or_assoc]

/-- C4: Linux `platform_pump_messages` with a state pointer, for every finite
queue of pending events.  The calls made are those of each queued event, once
each and in queue order, whatever came before it in the queue; the queue is
left empty; and the call returns false exactly when the queue held an
`XCB_CLIENT_MESSAGE` whose `data32[0]` is `wm_delete_win`.  In particular a
close message queued ahead of three key presses gives the three
`input_process_key` calls and returns false. -/
theorem linux_pump_drains_queue_in_order (st : Linux.platform_state)
    (queue : List Linux.xcb_generic_event_t) :
    (Linux.platform_pump_messages (some st) queue).calls =
      queue.flatMap (fun e => (Linux.dispatch_event st e false).1) ∧
    (Linux.platform_pump_messages (some st) queue).pending = [] ∧
    ((Linux.platform_pump_messages (some st) queue).still_running = false ↔
      ∃ e ∈ queue, e.response_type &&& 0x7f = Linux.XCB_CLIENT_MESSAGE ∧
        e.data32_0 = st.wm_delete_win) ∧
    ∀ d1 d2 d3 : Nat,
      (Linux.platform_pump_messages (some st)
        [⟨Linux.XCB_CLIENT_MESSAGE, 0, 0, 0, 0, 0, st.wm_delete_win⟩,
         ⟨Linux.XCB_KEY_PRESS, d1, 0, 0, 0, 0, 0⟩,
         ⟨Linux.XCB_KEY_RELEASE, d2, 0, 0, 0, 0, 0⟩,
         ⟨Linux.XCB_KEY_PRESS, d3, 0, 0, 0, 0, 0⟩]).calls =
        [Call.input_process_key (some (Linux.translate_keycode (st.syms d1))) true,
         Call.input_process_key (some (Linux.translate_keycode (st.syms d2))) false,
         Call.input_process_key (some (Linux.translate_keycode (st.syms d3))) true] ∧
      (Linux.platform_pump_messages (some st)
        [⟨Linux.XCB_CLIENT_MESSAGE, 0, 0, 0, 0, 0, st.wm_delete_win⟩,
         ⟨Linux.XCB_KEY_PRESS, d1, 0, 0, 0, 0, 0⟩,
         ⟨Linux.XCB_KEY_RELEASE, d2, 0, 0, 0, 0, 0⟩,
         ⟨Linux.XCB_KEY_PRESS, d3, 0, 0, 0, 0, 0⟩]).still_running = false := by
  refine ⟨?_, ?_, ?_, ?_⟩
  · simp [Linux.platform_pump_messages, linux_pump_loop_eq]
  · simp [Linux.platform_pump_messages, linux_pump_loop_eq]
  · simp [Linux.platform_pump_messages, linux_pump_loop_eq]
  · intro d1 d2 d3
    simp +decide [Linux.platform_pump_messages, linux_pump_loop_eq, Linux.dispatch_event,
      Linux.XCB_CLIENT_MESSAGE, Linux.XCB_KEY_PRESS, Linux.XCB_KEY_RELEASE,
      Linux.XCB_BUTTON_PRESS, Linux.XCB_BUTTON_RELEASE, Linux.XCB_MOTION_NOTIFY,
      Linux.XCB_CONFIGURE_NOTIFY]

/-- C5 (the code at the failing input): a queue holding one `XCB_BUTTON_PRESS`
with detail 1 makes the pump call `input_process_button(1, true)` and then, the
case having no `break`, `input_process_button(1, false)`. -/
theorem linux_button_press_also_releases (st : Linux.platform_state) :
    (Linux.platform_pump_messages (some st)
      [⟨Linux.XCB_BUTTON_PRESS, 1, 0, 0, 0, 0, 0⟩]).calls =
      [Call.input_process_button 1 true, Call.input_process_button 1 false] := by
  simp +decide [Linux.platform_pump_messages, linux_pump_loop_eq, Linux.dispatch_event,
    Linux.case_XCB_BUTTON_PRESS, Linux.case_XCB_BUTTON_RELEASE, Linux.XCB_BUTTON_PRESS,
    Linux.XCB_KEY_PRESS, Linux.XCB_KEY_RELEASE]

/-- C6 (the code at the failing input): a queue holding one `XCB_BUTTON_PRESS`
with detail 4, a wheel step, makes the pump call `input_process_mouse_wheel(-1)`
and then, the case having no `break`, `input_process_button(4, false)`. -/
theorem linux_wheel_press_calls_button (st : Linux.platform_state) :
    (Linux.platform_pump_messages (some st)
      [⟨Linux.XCB_BUTTON_PRESS, 4, 0, 0, 0, 0, 0⟩]).calls =
      [Call.input_process_mouse_wheel (-1), Call.input_process_button 4 false] := by
  simp +decide [Linux.platform_pump_messages, linux_pump_loop_eq, Linux.dispatch_event,
    Linux.case_XCB_BUTTON_PRESS, Linux.case_XCB_BUTTON_RELEASE, Linux.XCB_BUTTON_PRESS,
    Linux.XCB_KEY_PRESS, Linux.XCB_KEY_RELEASE]

/-- Every wheel call made for one Linux event carries `-1` or `+1`. -/
theorem linux_dispatch_wheel_unit (st : Linux.platform_state)
    (e : Linux.xcb_generic_event_t) (quit_flagged : Bool) (z : Int)
    (h : Call.input_process_mouse_wheel z ∈ (Linux.dispatch_event st e quit_flagged).1) :
    z = -1 ∨ z = 1 := by
  unfold Linux.dispatch_event at h
  simp only [Linux.case_XCB_BUTTON_PRESS, Linux.case_XCB_BUTTON_RELEASE] at h
  split_ifs at h <;> simp_all

/-! ## The Windows event pump -/

/-- The Windows pump's loop in closed form: every queued message is handed to
the window procedure, in queue order, and the queue is left empty. -/
theorem win32_pump_loop_eq :
    ∀ (queue : List (Win32.native_answers × Win32.MSG)) (calls : List Call),
      Win32.pump_loop queue calls =
        (calls ++ queue.flatMap Win32.DispatchMessageA, []) := by
  intro queue
  induction queue with
  | nil =>
    intro calls
    rw [Win32.pump_loop]
    simp [Win32.PeekMessageA]
  | cons m rest ih =>
    intro calls
    rw [Win32.pump_loop]
    simp [Win32.PeekMessageA, ih]

/-- Every wheel call made by the window procedure carries `-1` or `+1`. -/
theorem win32_wndproc_wheel_unit (na : Win32.native_answers) (msg w_param l_param : Nat)
    (z : Int)
    (h : Call.input_process_mouse_wheel z ∈
      (Win32.win32_process_message na msg w_param l_param).calls) :
    z = -1 ∨ z = 1 := by
  unfold Win32.win32_process_message at h
  simp only [] at h
  by_cases h1 : msg = Win32.WM_ERASEBKGND
  · rw [if_pos h1] at h; simp at h
  rw [if_neg h1] at h
  by_cases h2 : msg = Win32.WM_CLOSE
  · rw [if_pos h2] at h; simp at h
  rw [if_neg h2] at h
  by_cases h3 : msg = Win32.WM_DESTROY
  · rw [if_pos h3] at h; simp at h
  rw [if_neg h3] at h
  by_cases h4 : msg = Win32.WM_SIZE
  · rw [if_pos h4] at h; simp at h
  rw [if_neg h4] at h
  by_cases h5 : msg = Win32.WM_KEYDOWN ∨ msg = Win32.WM_SYSKEYDOWN ∨ msg = Win32.WM_KEYUP ∨
      msg = Win32.WM_SYSKEYUP
  · rw [if_pos h5] at h; simp at h
  rw [if_neg h5] at h
  by_cases h6 : msg = Win32.WM_MOUSEMOVE
  · rw [if_pos h6] at h; simp at h
  rw [if_neg h6] at h
  by_cases h7 : msg = Win32.WM_MOUSEWHEEL
  · rw [if_pos h7] at h
    by_cases hz : Win32.GET_WHEEL_DELTA_WPARAM w_param ≠ 0
    · rw [if_pos hz] at h
      by_cases hneg : Win32.GET_WHEEL_DELTA_WPARAM w_param < 0
      · rw [if_pos hneg] at h; simp at h; exact Or.inl h
      · rw [if_neg hneg] at h; simp at h; exact Or.inr h
    · rw [if_neg hz] at h; simp at h
  rw [if_neg h7] at h
  by_cases h8 : msg = Win32.WM_LBUTTONDOWN ∨ msg = Win32.WM_MBUTTONDOWN ∨
      msg = Win32.WM_RBUTTONDOWN ∨ msg = Win32.WM_LBUTTONUP ∨ msg = Win32.WM_MBUTTONUP ∨
      msg = Win32.WM_RBUTTONUP
  · rw [if_pos h8] at h
    by_cases hb : Win32.mouse_button_of msg ≠ BUTTON_MAX_BUTTONS
    · rw [if_pos hb] at h; simp at h
    · rw [if_neg hb] at h; simp at h
  rw [if_neg h8] at h
  simp at h

/-- C7: every wheel delta the event pumps pass to `input_process_mouse_wheel`
is `-1` or `+1`.  On Linux a button press with detail above 3 passes `-1` when
the detail is 4 and `+1` otherwise; on Windows a `WM_MOUSEWHEEL` with native
delta `z` passes `-1` when `z < 0`, `+1` when `z > 0`, and makes no call when
`z = 0`. -/
theorem wheel_delta_is_minus_one_or_one :
    (∀ (state_ptr : Option Linux.platform_state)
        (queue : List Linux.xcb_generic_event_t) (z : Int),
        Call.input_process_mouse_wheel z ∈
          (Linux.platform_pump_messages state_ptr queue).calls → z = -1 ∨ z = 1) ∧
    (∀ (st : Linux.platform_state) (ev : Linux.xcb_generic_event_t) (quit_flagged : Bool),
        ev.response_type &&& 0x7f = Linux.XCB_BUTTON_PRESS → ev.detail > 3 →
        ∀ z : Int, Call.input_process_mouse_wheel z ∈
            (Linux.dispatch_event st ev quit_flagged).1 ↔
          z = if ev.detail = 4 then -1 else 1) ∧
    (∀ (state_ptr : Option Win32.platform_state)
        (queue : List (Win32.native_answers × Win32.MSG)) (z : Int),
        Call.input_process_mouse_wheel z ∈
          (Win32.platform_pump_messages state_ptr queue).calls → z = -1 ∨ z = 1) ∧
    (∀ (na : Win32.native_answers) (w_param l_param : Nat),
        (Win32.win32_process_message na Win32.WM_MOUSEWHEEL w_param l_param).calls =
          if Win32.GET_WHEEL_DELTA_WPARAM w_param = 0 then []
          else if Win32.GET_WHEEL_DELTA_WPARAM w_param < 0 then
            [Call.input_process_mouse_wheel (-1)]
          else [Call.input_process_mouse_wheel 1]) := by
  refine ⟨?_, ?_, ?_, ?_⟩
  · intro state_ptr queue z h
    cases state_ptr with
    | none => simp [Linux.platform_pump_messages] at h
    | some st =>
      simp only [Linux.platform_pump_messages, linux_pump_loop_eq, List.nil_append,
        List.mem_flatMap] at h
      obtain ⟨e, _, he⟩ := h
      exact linux_dispatch_wheel_unit st e false z he
  · intro st ev quit_flagged ht hd z
    unfold Linux.dispatch_event
    simp +decide [ht, hd, Linux.case_XCB_BUTTON_PRESS, Linux.case_XCB_BUTTON_RELEASE,
      Linux.XCB_BUTTON_PRESS, Linux.XCB_KEY_PRESS, Linux.XCB_KEY_RELEASE]
  · intro state_ptr queue z h
    cases state_ptr with
    | none => simp [Win32.platform_pump_messages] at h
    | some st =>
      simp only [Win32.platform_pump_messages, win32_pump_loop_eq, List.nil_append,
        List.mem_flatMap] at h
      obtain ⟨m, _, hm⟩ := h
      exact win32_wndproc_wheel_unit m.1 m.2.message m.2.wParam m.2.lParam z hm
  · intro na w_param l_param
    unfold Win32.win32_process_message
    simp +decide [Win32.WM_MOUSEWHEEL, Win32.WM_ERASEBKGND, Win32.WM_CLOSE, Win32.WM_DESTROY,
      Win32.WM_SIZE, Win32.WM_KEYDOWN, Win32.WM_SYSKEYDOWN, Win32.WM_KEYUP, Win32.WM_SYSKEYUP,
      Win32.WM_MOUSEMOVE]
    split_ifs <;> rfl

/-- C7 at a Linux button press with detail 5: the one wheel call passes `+1`. -/
theorem wheel_delta_at_detail_5 :
    (4 &&& 0x7f = Linux.XCB_BUTTON_PRESS ∧ 5 > 3) ∧
    (Call.input_process_mouse_wheel 1 ∈
        (Linux.dispatch_event ⟨0, fun d => d⟩ ⟨4, 5, 0, 0, 0, 0, 0⟩ false).1 ↔
      (1 : Int) = if 5 = 4 then -1 else 1) :=
  ⟨by decide,
    wheel_delta_is_minus_one_or_one.2.1 ⟨0, fun d => d⟩ ⟨4, 5, 0, 0, 0, 0, 0⟩ false
      (by decide) (by decide) 1⟩

/-- The Windows translator on the six sided modifier codes. -/
theorem win32_translate_sided_modifiers :
    Win32.translate_keycode 0xa0 = some keys.KEY_LSHIFT.val ∧
    Win32.translate_keycode 0xa1 = some keys.KEY_RSHIFT.val ∧
    Win32.translate_keycode 0xa2 = some keys.KEY_LCONTROL.val ∧
    Win32.translate_keycode 0xa3 = some keys.KEY_RCONTROL.val ∧
    Win32.translate_keycode 0xa4 = some keys.KEY_LALT.val ∧
    Win32.translate_keycode 0xa5 = some keys.KEY_RALT.val := by
  decide

/-- The calls of the window procedure on one of the four key messages. -/
theorem win32_wndproc_key_calls (na : Win32.native_answers) (msg w_param l_param : Nat)
    (hmsg : msg = Win32.WM_KEYDOWN ∨ msg = Win32.WM_SYSKEYDOWN ∨ msg = Win32.WM_KEYUP ∨
      msg = Win32.WM_SYSKEYUP) :
    (Win32.win32_process_message na msg w_param l_param).calls =
      [Call.input_process_key
        (Win32.translate_keycode (Win32.disambiguate_key na w_param l_param))
        (decide (msg = Win32.WM_KEYDOWN ∨ msg = Win32.WM_SYSKEYDOWN))] := by
  unfold Win32.win32_process_message
  have h1 : msg ≠ Win32.WM_ERASEBKGND := by
    rcases hmsg with h | h | h | h <;> rw [h] <;> decide
  have h2 : msg ≠ Win32.WM_CLOSE := by
    rcases hmsg with h | h | h | h <;> rw [h] <;> decide
  have h3 : msg ≠ Win32.WM_DESTROY := by
    rcases hmsg with h | h | h | h <;> rw [h] <;> decide
  have h4 : msg ≠ Win32.WM_SIZE := by
    rcases hmsg with h | h | h | h <;> rw [h] <;> decide
  simp only [if_neg h1, if_neg h2, if_neg h3, if_neg h4, if_pos hmsg]

/-- The handler's extended-key test reads bit 24 of `l_param`. -/
theorem win32_is_extended_eq_bit_24 (l_param : Nat) :
    Win32.is_extended l_param = l_param.testBit 24 := by
  unfold Win32.is_extended Win32.HIWORD Win32.KF_EXTENDED
  rw [Nat.and_assoc]
  have h : (0xffff &&& 0x0100 : Nat) = 2 ^ 8 := by decide
  rw [h, Nat.and_two_pow, Nat.testBit_shiftRight]
  cases hb : l_param.testBit (16 + 8) <;> simp [hb]

/-- The handler's scancode expression reads bits 16 to 23 of `l_param`. -/
theorem win32_scancode_eq_bits_16_23 (l_param : Nat) :
    Win32.scancode l_param = (l_param / 65536) % 256 := by
  unfold Win32.scancode
  apply Nat.eq_of_testBit_eq
  intro i
  have h1 : (l_param / 65536) % 256 = (l_param >>> 16) % 2 ^ 8 := by
    rw [Nat.shiftRight_eq_div_pow]; norm_num
  have h2 : (0xFF : Nat) = 2 ^ 8 - 1 := by decide
  rw [h1, Nat.testBit_mod_two_pow, Nat.testBit_shiftRight, Nat.testBit_shiftRight,
    Nat.testBit_and, Nat.testBit_shiftLeft, h2, Nat.testBit_two_pow_sub_one]
  have h3 : 16 + i - 16 = i := by omega
  rw [h3]
  cases l_param.testBit (16 + i) <;> simp

/-- C8: Windows key handling disambiguates the generic modifiers before
translation.  For a `WM_KEYDOWN`, `WM_SYSKEYDOWN`, `WM_KEYUP` or `WM_SYSKEYUP`
whose `w_param` is `VK_MENU`, `VK_CONTROL` or `VK_SHIFT`, the window procedure
makes one `input_process_key` call; its key is `KEY_RALT` / `KEY_RCONTROL` when
the extended-key flag, bit 24 of `l_param`, is set and `KEY_LALT` /
`KEY_LCONTROL` when not, and `KEY_LSHIFT` when the scancode, bits 16 to 23 of
`l_param`, is the left-shift scancode and `KEY_RSHIFT` otherwise; it is neither
`KEY_SHIFT` nor `KEY_CONTROL`; and `pressed` is true exactly for the two down
messages. -/
theorem win32_modifier_side_resolved (na : Win32.native_answers)
    (msg w_param l_param : Nat)
    (hmsg : msg = Win32.WM_KEYDOWN ∨ msg = Win32.WM_SYSKEYDOWN ∨ msg = Win32.WM_KEYUP ∨
      msg = Win32.WM_SYSKEYUP)
    (hw : w_param = Win32.VK_MENU ∨ w_param = Win32.VK_CONTROL ∨ w_param = Win32.VK_SHIFT) :
    ∃ key : Nat,
      (Win32.win32_process_message na msg w_param l_param).calls =
        [Call.input_process_key (some key)
          (decide (msg = Win32.WM_KEYDOWN ∨ msg = Win32.WM_SYSKEYDOWN))] ∧
      (w_param = Win32.VK_MENU →
        key = if l_param.testBit 24 = true then keys.KEY_RALT.val
          else keys.KEY_LALT.val) ∧
      (w_param = Win32.VK_CONTROL →
        key = if l_param.testBit 24 = true then keys.KEY_RCONTROL.val
          else keys.KEY_LCONTROL.val) ∧
      (w_param = Win32.VK_SHIFT →
        key = if (l_param / 65536) % 256 = na.left_shift then keys.KEY_LSHIFT.val
          else keys.KEY_RSHIFT.val) ∧
      key ≠ keys.KEY_SHIFT.val ∧ key ≠ keys.KEY_CONTROL.val := by
  obtain ⟨t0, t1, t2, t3, t4, t5⟩ := win32_translate_sided_modifiers
  rw [win32_wndproc_key_calls na msg w_param l_param hmsg,
    ← win32_is_extended_eq_bit_24 l_param, ← win32_scancode_eq_bits_16_23 l_param]
  rcases hw with h | h | h
  · subst h
    by_cases he : Win32.is_extended l_param = true
    · refine ⟨keys.KEY_RALT.val, ?_, ?_, ?_, ?_, ?_, ?_⟩
      · simp +decide [Win32.disambiguate_key, he, t5]
      all_goals simp +decide [he]
    · refine ⟨keys.KEY_LALT.val, ?_, ?_, ?_, ?_, ?_, ?_⟩
      · simp +decide [Win32.disambiguate_key, he, t4]
      all_goals simp +decide [he]
  · subst h
    by_cases he : Win32.is_extended l_param = true
    · refine ⟨keys.KEY_RCONTROL.val, ?_, ?_, ?_, ?_, ?_, ?_⟩
      · simp +decide [Win32.disambiguate_key, he, t3]
      all_goals simp +decide [he]
    · refine ⟨keys.KEY_LCONTROL.val, ?_, ?_, ?_, ?_, ?_, ?_⟩
      · simp +decide [Win32.disambiguate_key, he, t2]
      all_goals simp +decide [he]
  · subst h
    by_cases hs : Win32.scancode l_param = na.left_shift
    · refine ⟨keys.KEY_LSHIFT.val, ?_, ?_, ?_, ?_, ?_, ?_⟩
      · simp +decide [Win32.disambiguate_key, hs, t0]
      all_goals simp +decide [hs]
    · refine ⟨keys.KEY_RSHIFT.val, ?_, ?_, ?_, ?_, ?_, ?_⟩
      · simp +decide [Win32.disambiguate_key, hs, t1]
      all_goals simp +decide [hs]

/-- C8 at three messages, with left-shift scancode 42.  A `WM_KEYDOWN` of
`VK_MENU` with bit 24 of `l_param` set presses `KEY_RALT`; a `WM_SYSKEYDOWN` of
`VK_CONTROL` with bit 24 clear presses `KEY_LCONTROL`; a `WM_KEYUP` of `VK_SHIFT`
with scancode 42 releases `KEY_LSHIFT`, and with scancode 54 `KEY_RSHIFT`. -/
theorem win32_modifier_side_resolved_at_right_alt :
    (Win32.win32_process_message ⟨42, ⟨0, 0, 800, 600⟩⟩ Win32.WM_KEYDOWN Win32.VK_MENU
        (1 <<< 24)).calls =
      [Call.input_process_key (some keys.KEY_RALT.val) true] ∧
    (Win32.win32_process_message ⟨42, ⟨0, 0, 800, 600⟩⟩ Win32.WM_SYSKEYDOWN
        Win32.VK_CONTROL (29 <<< 16)).calls =
      [Call.input_process_key (some keys.KEY_LCONTROL.val) true] ∧
    (Win32.win32_process_message ⟨42, ⟨0, 0, 800, 600⟩⟩ Win32.WM_KEYUP Win32.VK_SHIFT
        (42 <<< 16)).calls =
      [Call.input_process_key (some keys.KEY_LSHIFT.val) false] ∧
    (Win32.win32_process_message ⟨42, ⟨0, 0, 800, 600⟩⟩ Win32.WM_KEYUP Win32.VK_SHIFT
        (54 <<< 16)).calls =
      [Call.input_process_key (some keys.KEY_RSHIFT.val) false] := by
  refine ⟨?_, ?_, ?_, ?_⟩
  · obtain ⟨key, hcalls, hmenu, _, _, _, _⟩ :=
      win32_modifier_side_resolved ⟨42, ⟨0, 0, 800, 600⟩⟩ Win32.WM_KEYDOWN Win32.VK_MENU
        (1 <<< 24) (Or.inl rfl) (Or.inl rfl)
    rw [hcalls, hmenu rfl]
    decide
  · obtain ⟨key, hcalls, _, hcontrol, _, _, _⟩ :=
      win32_modifier_side_resolved ⟨42, ⟨0, 0, 800, 600⟩⟩ Win32.WM_SYSKEYDOWN
        Win32.VK_CONTROL (29 <<< 16) (Or.inr (Or.inl rfl)) (Or.inr (Or.inl rfl))
    rw [hcalls, hcontrol rfl]
    decide
  · obtain ⟨key, hcalls, _, _, hshift, _, _⟩ :=
      win32_modifier_side_resolved ⟨42, ⟨0, 0, 800, 600⟩⟩ Win32.WM_KEYUP Win32.VK_SHIFT
        (42 <<< 16) (Or.inr (Or.inr (Or.inl rfl))) (Or.inr (Or.inr rfl))
    rw [hcalls, hshift rfl]
    decide
  · obtain ⟨key, hcalls, _, _, hshift, _, _⟩ :=
      win32_modifier_side_resolved ⟨42, ⟨0, 0, 800, 600⟩⟩ Win32.WM_KEYUP Win32.VK_SHIFT
        (54 <<< 16) (Or.inr (Or.inr (Or.inl rfl))) (Or.inr (Or.inr rfl))
    rw [hcalls, hshift rfl]
    decide

/-- C9 (the code at the failing inputs): the virtual-key codes `0x12`, `0x5E`,
`0x88` and `0xDB` (`VK_OEM_4`, the `[` key) are in no slot of the Windows
table, `translate_keycode` reaches its closing brace without a `return` for
each of them, and a `WM_KEYDOWN` of `0xDB` hands that undefined value to
`input_process_key`. -/
theorem win32_translate_unmapped_has_no_return :
    (∀ j, j < KEYS_MAX_KEYS →
      Win32.key_lookup_table.getD j 0 ≠ 0x12 ∧ Win32.key_lookup_table.getD j 0 ≠ 0x5E ∧
        Win32.key_lookup_table.getD j 0 ≠ 0x88 ∧ Win32.key_lookup_table.getD j 0 ≠ 0xDB) ∧
    Win32.translate_keycode 0x12 = none ∧
    Win32.translate_keycode 0x5E = none ∧
    Win32.translate_keycode 0x88 = none ∧
    Win32.translate_keycode 0xDB = none ∧
    ∀ (na : Win32.native_answers) (l_param : Nat),
      (Win32.win32_process_message na Win32.WM_KEYDOWN 0xDB l_param).calls =
        [Call.input_process_key none true] := by
  refine ⟨by decide, by decide, by decide, by decide, by decide, ?_⟩
  intro na l_param
  have h : Win32.translate_keycode 0xDB = none := by decide
  rw [win32_wndproc_key_calls na _ _ _ (Or.inl rfl)]
  simp +decide [Win32.disambiguate_key, h]

/-- C10 (counterexample): with a state pointer and a queue holding one
`WM_CLOSE`, the Windows `platform_pump_messages` drains the message and
returns true. -/
theorem win32_pump_close_returns_true :
    (Win32.platform_pump_messages (some ⟨0, 0⟩)
      [(⟨42, ⟨0, 0, 800, 600⟩⟩, ⟨Win32.WM_CLOSE, 0, 0⟩)]).still_running = true ∧
    (Win32.platform_pump_messages (some ⟨0, 0⟩)
      [(⟨42, ⟨0, 0, 800, 600⟩⟩, ⟨Win32.WM_CLOSE, 0, 0⟩)]).pending = [] := by
  simp [Win32.platform_pump_messages, win32_pump_loop_eq]

/-- C10 (amended): the Windows `platform_pump_messages` returns true on every
call, whether or not a `WM_CLOSE` is among the messages it drains.  With a
state pointer it hands every queued message to the window procedure, in queue
order, and leaves the queue empty; the window procedure answers a `WM_CLOSE` by
one `event_fire(EVENT_CODE_APPLICATION_QUIT)` call with a zeroed payload. -/
theorem win32_pump_always_returns_true (state_ptr : Option Win32.platform_state)
    (queue : List (Win32.native_answers × Win32.MSG)) :
    (Win32.platform_pump_messages state_ptr queue).still_running = true ∧
    (∀ st : Win32.platform_state,
      (Win32.platform_pump_messages (some st) queue).calls =
        queue.flatMap (fun m =>
          (Win32.win32_process_message m.1 m.2.message m.2.wParam m.2.lParam).calls) ∧
      (Win32.platform_pump_messages (some st) queue).pending = []) ∧
    ∀ (na : Win32.native_answers) (w_param l_param : Nat),
      (Win32.win32_process_message na Win32.WM_CLOSE w_param l_param).calls =
        [Call.event_fire system_event_code.EVENT_CODE_APPLICATION_QUIT 0 0] := by
  refine ⟨?_, ?_, ?_⟩
  · cases state_ptr <;> simp [Win32.platform_pump_messages]
  · intro st
    simp only [Win32.platform_pump_messages, win32_pump_loop_eq, List.nil_append, and_true]
    rfl
  · intro na w_param l_param
    unfold Win32.win32_process_message
    simp +decide [Win32.WM_CLOSE, Win32.WM_ERASEBKGND]

/-! ## Empty queues, resize events and documented slots -/

/-- C11: Linux `platform_pump_messages` called with an empty native event queue
returns true and makes no call at all (no `input_process_key`,
`input_process_button`, `input_process_mouse_move`, `input_process_mouse_wheel`
or `event_fire`); with a null state pointer it returns true, makes no call and
leaves the queue as it was, whatever the queue holds. -/
theorem linux_pump_empty_queue_or_null_state (st : Linux.platform_state)
    (queue : List Linux.xcb_generic_event_t) :
    (Linux.platform_pump_messages (some st) []).still_running = true ∧
    (Linux.platform_pump_messages (some st) []).calls = [] ∧
    (Linux.platform_pump_messages none queue).still_running = true ∧
    (Linux.platform_pump_messages none queue).calls = [] ∧
    (Linux.platform_pump_messages none queue).pending = queue := by
  refine ⟨?_, ?_, rfl, rfl, rfl⟩
  · simp [Linux.platform_pump_messages, linux_pump_loop_nil]
  · simp [Linux.platform_pump_messages, linux_pump_loop_nil]

/-- The calls of the window procedure on `WM_SIZE`, as the code computes them. -/
theorem win32_wndproc_size_calls (na : Win32.native_answers) (w_param l_param : Nat) :
    (Win32.win32_process_message na Win32.WM_SIZE w_param l_param).calls =
      [Call.event_fire system_event_code.EVENT_CODE_RESIZED
        (((na.client_rect.right - na.client_rect.left) % 4294967296).toNat % 65536)
        (((na.client_rect.bottom - na.client_rect.top) % 4294967296).toNat % 65536)] := by
  unfold Win32.win32_process_message
  have h1 : Win32.WM_SIZE ≠ Win32.WM_ERASEBKGND := by decide
  have h2 : Win32.WM_SIZE ≠ Win32.WM_CLOSE := by decide
  have h3 : Win32.WM_SIZE ≠ Win32.WM_DESTROY := by decide
  simp only [if_neg h1, if_neg h2, if_neg h3, if_true]

/-- C12: a resize event only emits on the bus.  For every
`XCB_CONFIGURE_NOTIFY` event, the Linux `platform_pump_messages` run on a queue
holding that event makes exactly one call, `event_fire(EVENT_CODE_RESIZED)` with
`u16[0]` the event's width and `u16[1]` its height, so no `input_process_*`
call, empties the queue and returns true; inside the pump's switch the event
gives that one call and leaves `quit_flagged` as it was.  For every `WM_SIZE`
message the Windows window procedure, and the Windows `platform_pump_messages`
run on a queue holding that message, make exactly one call,
`event_fire(EVENT_CODE_RESIZED)` with the client rectangle's width
`right - left` and height `bottom - top`, each reduced modulo `2^16`. -/
theorem resize_only_fires_event :
    (∀ (st : Linux.platform_state) (ev : Linux.xcb_generic_event_t),
      ev.response_type &&& 0x7f = Linux.XCB_CONFIGURE_NOTIFY →
      (Linux.platform_pump_messages (some st) [ev]).calls =
        [Call.event_fire system_event_code.EVENT_CODE_RESIZED ev.width ev.height] ∧
      (Linux.platform_pump_messages (some st) [ev]).pending = [] ∧
      (Linux.platform_pump_messages (some st) [ev]).still_running = true) ∧
    (∀ (st : Linux.platform_state) (ev : Linux.xcb_generic_event_t) (quit_flagged : Bool),
      ev.response_type &&& 0x7f = Linux.XCB_CONFIGURE_NOTIFY →
      Linux.dispatch_event st ev quit_flagged =
        ([Call.event_fire system_event_code.EVENT_CODE_RESIZED ev.width ev.height],
          quit_flagged)) ∧
    (∀ (na : Win32.native_answers) (w_param l_param : Nat),
      (Win32.win32_process_message na Win32.WM_SIZE w_param l_param).calls =
        [Call.event_fire system_event_code.EVENT_CODE_RESIZED
          ((na.client_rect.right - na.client_rect.left) % 65536).toNat
          ((na.client_rect.bottom - na.client_rect.top) % 65536).toNat]) ∧
    (∀ (st : Win32.platform_state) (na : Win32.native_answers) (w_param l_param : Nat),
      (Win32.platform_pump_messages (some st) [(na, ⟨Win32.WM_SIZE, w_param, l_param⟩)]).calls =
        [Call.event_fire system_event_code.EVENT_CODE_RESIZED
          ((na.client_rect.right - na.client_rect.left) % 65536).toNat
          ((na.client_rect.bottom - na.client_rect.top) % 65536).toNat]) := by
  have hlinux : ∀ (st : Linux.platform_state) (ev : Linux.xcb_generic_event_t)
      (quit_flagged : Bool), ev.response_type &&& 0x7f = Linux.XCB_CONFIGURE_NOTIFY →
      Linux.dispatch_event st ev quit_flagged =
        ([Call.event_fire system_event_code.EVENT_CODE_RESIZED ev.width ev.height],
          quit_flagged) := by
    intro st ev quit_flagged ht
    unfold Linux.dispatch_event
    simp +decide [ht, Linux.XCB_CONFIGURE_NOTIFY, Linux.XCB_KEY_PRESS, Linux.XCB_KEY_RELEASE,
      Linux.XCB_BUTTON_PRESS, Linux.XCB_BUTTON_RELEASE, Linux.XCB_MOTION_NOTIFY]
  have hwin : ∀ (na : Win32.native_answers) (w_param l_param : Nat),
      (Win32.win32_process_message na Win32.WM_SIZE w_param l_param).calls =
        [Call.event_fire system_event_code.EVENT_CODE_RESIZED
          ((na.client_rect.right - na.client_rect.left) % 65536).toNat
          ((na.client_rect.bottom - na.client_rect.top) % 65536).toNat] := by
    intro na w_param l_param
    rw [win32_wndproc_size_calls]
    have hw : ((na.client_rect.right - na.client_rect.left) % 4294967296).toNat % 65536 =
        ((na.client_rect.right - na.client_rect.left) % 65536).toNat := by omega
    have hh : ((na.client_rect.bottom - na.client_rect.top) % 4294967296).toNat % 65536 =
        ((na.client_rect.bottom - na.client_rect.top) % 65536).toNat := by omega
    rw [hw, hh]
  refine ⟨?_, hlinux, hwin, ?_⟩
  · intro st ev ht
    have hcm : ¬ (ev.response_type &&& 0x7f = Linux.XCB_CLIENT_MESSAGE) := by
      rw [ht]; decide
    simp only [Linux.platform_pump_messages, linux_pump_loop_eq, hlinux st ev false ht,
      List.flatMap_cons, List.flatMap_nil, List.append_nil, List.nil_append, List.any_cons,
      List.any_nil, hcm, false_and, decide_False, Bool.or_false, Bool.not_false, and_self]
  · intro st na w_param l_param
    simp only [Win32.platform_pump_messages, win32_pump_loop_eq, List.flatMap_cons,
      List.flatMap_nil, List.append_nil, List.nil_append, Win32.DispatchMessageA, hwin]

/-- C12 at a synthetic configure event (`response_type` with bit 7 set) of an
800 by 600 window, alone in the queue of the Linux pump: one
`event_fire(EVENT_CODE_RESIZED, 800, 600)`, the queue emptied, true returned. -/
theorem resize_only_fires_event_at_800_600 :
    (22 + 128) &&& 0x7f = Linux.XCB_CONFIGURE_NOTIFY ∧
    (Linux.platform_pump_messages (some ⟨0, fun d => d⟩)
      [⟨22 + 128, 0, 0, 0, 800, 600, 0⟩]).calls =
      [Call.event_fire system_event_code.EVENT_CODE_RESIZED 800 600] ∧
    (Linux.platform_pump_messages (some ⟨0, fun d => d⟩)
      [⟨22 + 128, 0, 0, 0, 800, 600, 0⟩]).pending = [] ∧
    (Linux.platform_pump_messages (some ⟨0, fun d => d⟩)
      [⟨22 + 128, 0, 0, 0, 800, 600, 0⟩]).still_running = true :=
  ⟨by decide,
    resize_only_fires_event.1 ⟨0, fun d => d⟩ ⟨22 + 128, 0, 0, 0, 800, 600, 0⟩ (by decide)⟩

/-- C13 (the code at the failing inputs): the native codes documented as
"The number lock key", `0xff7f` on Linux and `0x90` on Windows, translate to
index `0x6c`, while the header gives `KEY_NUMLOCK` the value `0x6b`, the value
of `KEY_F24`; the codes documented as "The F24 key" translate to `0x6b`. -/
theorem numlock_code_is_not_key_numlock :
    Linux.translate_keycode 0xff7f = 0x6c ∧
    Win32.translate_keycode 0x90 = some 0x6c ∧
    keys.KEY_NUMLOCK.val = 0x6b ∧
    keys.KEY_F24.val = 0x6b ∧
    Linux.translate_keycode 0xffd5 = keys.KEY_F24.val ∧
    Win32.translate_keycode 0x87 = some keys.KEY_F24.val := by
  decide

/-- C14: backend independence on the shared code range.  For a digit code
`0x30..0x39` both translators return `KEY_0 + (c - 0x30)`, and for an uppercase
letter code `0x41..0x5A` both return `KEY_A + (c - 0x41)`. -/
theorem digits_and_letters_agree_across_backends (c : Nat)
    (hc : (0x30 ≤ c ∧ c ≤ 0x39) ∨ (0x41 ≤ c ∧ c ≤ 0x5A)) :
    Win32.translate_keycode c = some (Linux.translate_keycode c) ∧
    ((0x30 ≤ c ∧ c ≤ 0x39) → Linux.translate_keycode c = keys.KEY_0.val + (c - 0x30)) ∧
    ((0x41 ≤ c ∧ c ≤ 0x5A) → Linux.translate_keycode c = keys.KEY_A.val + (c - 0x41)) := by
  have h : ∀ d, d ≤ 0x5A → ((0x30 ≤ d ∧ d ≤ 0x39) ∨ (0x41 ≤ d ∧ d ≤ 0x5A)) →
      Win32.translate_keycode d = some (Linux.translate_keycode d) ∧
      ((0x30 ≤ d ∧ d ≤ 0x39) → Linux.translate_keycode d = keys.KEY_0.val + (d - 0x30)) ∧
      ((0x41 ≤ d ∧ d ≤ 0x5A) → Linux.translate_keycode d = keys.KEY_A.val + (d - 0x41)) := by
    decide
  exact h c (by omega) hc

/-- C14 at the code `0x41` of the letter A: both backends return `KEY_A`. -/
theorem digits_and_letters_agree_at_A :
    Win32.translate_keycode 0x41 = some (Linux.translate_keycode 0x41) ∧
    ((0x30 ≤ 0x41 ∧ 0x41 ≤ 0x39) →
      Linux.translate_keycode 0x41 = keys.KEY_0.val + (0x41 - 0x30)) ∧
    ((0x41 ≤ 0x41 ∧ 0x41 ≤ 0x5A) →
      Linux.translate_keycode 0x41 = keys.KEY_A.val + (0x41 - 0x41)) :=
  digits_and_letters_agree_across_backends 0x41 (Or.inr (by decide))

/-! ## The input state store -/

/-- C15: edge detection.  For every valid key `k` and every starting state,
after `input_process_key(k, true)`, then `input_update`, then
`input_process_key(k, false)`, `input_is_key_down(k)` is false and
`input_was_key_down(k)` is true. -/
theorem input_release_edge_detected (s : input_state) (k : Nat) (hk : k < KEYS_MAX_KEYS) :
    (input_is_key_down
      (input_process_key (input_update (input_process_key s k true)) k false) k).1 = false ∧
    (input_was_key_down
      (input_process_key (input_update (input_process_key s k true)) k false) k).1 = true := by
  simp [input_is_key_down, input_was_key_down, input_process_key, input_update, hk]

/-- C15 at `KEY_A`, from the freshly initialized store. -/
theorem input_release_edge_detected_at_KEY_A :
    (input_is_key_down
      (input_process_key (input_update
        (input_process_key input_system_initialize keys.KEY_A.val true))
        keys.KEY_A.val false) keys.KEY_A.val).1 = false ∧
    (input_was_key_down
      (input_process_key (input_update
        (input_process_key input_system_initialize keys.KEY_A.val true))
        keys.KEY_A.val false) keys.KEY_A.val).1 = true :=
  input_release_edge_detected input_system_initialize keys.KEY_A.val (by decide)

/-- C16: the mouse position is shifted on every update.  For all positions
`(x1, y1)` and `(x2, y2)` and every starting state, after
`input_process_mouse_move(x1, y1)` then `input_process_mouse_move(x2, y2)`,
with no `input_update` in between, `input_get_previous_mouse_position` yields
`(x1, y1)` and `input_get_mouse_position` yields `(x2, y2)`; so with
`(10, 20)` then `(30, 40)`. -/
theorem input_previous_position_tracks_last_move (s : input_state) (x1 y1 x2 y2 : Int) :
    (input_get_previous_mouse_position
      (input_process_mouse_move (input_process_mouse_move s x1 y1) x2 y2)).1 = (x1, y1) ∧
    (input_get_mouse_position
      (input_process_mouse_move (input_process_mouse_move s x1 y1) x2 y2)).1 = (x2, y2) ∧
    (input_get_previous_mouse_position
      (input_process_mouse_move (input_process_mouse_move s 10 20) 30 40)).1 = (10, 20) ∧
    (input_get_mouse_position
      (input_process_mouse_move (input_process_mouse_move s 10 20) 30 40)).1 = (30, 40) :=
  ⟨rfl, rfl, rfl, rfl⟩

/-- C17 (counterexample): from the freshly initialized store, after
`input_process_key(KEY_A, true)` followed by `input_update`,
`input_was_key_down(KEY_A)` returns true, not false. -/
theorem input_was_key_down_true_after_update :
    (input_was_key_down
      (input_update (input_process_key input_system_initialize keys.KEY_A.val true))
      keys.KEY_A.val).1 = true := by
  decide

/-- C17 (amended): from the freshly initialized store, after
`input_process_key(KEY_A, true)` and before `input_update`,
`input_is_key_down(KEY_A)` returns true and `input_was_key_down(KEY_A)` returns
false; once `input_update` has run, both return true, `input_update` having
copied the pressed state into `previous`. -/
theorem input_first_frame_press :
    (input_is_key_down
      (input_process_key input_system_initialize keys.KEY_A.val true)
      keys.KEY_A.val).1 = true ∧
    (input_was_key_down
      (input_process_key input_system_initialize keys.KEY_A.val true)
      keys.KEY_A.val).1 = false ∧
    (input_is_key_down
      (input_update (input_process_key input_system_initialize keys.KEY_A.val true))
      keys.KEY_A.val).1 = true ∧
    (input_was_key_down
      (input_update (input_process_key input_system_initialize keys.KEY_A.val true))
      keys.KEY_A.val).1 = true := by
  decide

/-- C18: the out-of-range guard.  For every key value at or above
`KEYS_MAX_KEYS` passed to `input_process_key`, and every button value at or
above `BUTTON_MAX_BUTTONS` passed to `input_process_button`, the call leaves
the whole input state unchanged. -/
theorem input_out_of_range_ignored (s : input_state) (key button : Nat) (pressed : Bool)
    (hkey : KEYS_MAX_KEYS ≤ key) (hbutton : BUTTON_MAX_BUTTONS ≤ button) :
    input_process_key s key pressed = s ∧ input_process_button s button pressed = s := by
  constructor
  · simp [input_process_key, Nat.not_lt.2 hkey]
  · simp [input_process_button, Nat.not_lt.2 hbutton]

/-- C18 at key `KEYS_MAX_KEYS` and button 3, the value the Linux pump passes for
the X button 3. -/
theorem input_out_of_range_ignored_at_max :
    input_process_key input_system_initialize KEYS_MAX_KEYS true =
      input_system_initialize ∧
    input_process_button input_system_initialize 3 true = input_system_initialize :=
  input_out_of_range_ignored input_system_initialize KEYS_MAX_KEYS 3 true
    (Nat.le_refl _) (by decide)

/-- C19: the up queries are the exact negation of the down queries in every
state, for every key and every mouse button, and none of the eight queries
changes the state. -/
theorem input_up_is_not_down (s : input_state) (k b : Nat) :
    ((input_is_key_up s k).1 = !(input_is_key_down s k).1 ∧
      (input_was_key_up s k).1 = !(input_was_key_down s k).1 ∧
      (input_is_button_up s b).1 = !(input_is_button_down s b).1 ∧
      (input_was_button_up s b).1 = !(input_was_button_down s b).1) ∧
    ((input_is_key_down s k).2 = s ∧ (input_is_key_up s k).2 = s ∧
      (input_was_key_down s k).2 = s ∧ (input_was_key_up s k).2 = s ∧
      (input_is_button_down s b).2 = s ∧ (input_is_button_up s b).2 = s ∧
      (input_was_button_down s b).2 = s ∧ (input_was_button_up s b).2 = s) :=
  ⟨⟨rfl, rfl, rfl, rfl⟩, ⟨rfl, rfl, rfl, rfl, rfl, rfl, rfl, rfl⟩⟩

/-! ## Startup of the Linux platform layer -/

/-- C20 (the code at the failing input): with a buffer, a connection without
error, the XKB extension present, loaded and supported, and an error reported
by `xcb_xkb_per_client_flags_reply`, `platform_system_startup` logs the
`KERROR` line "not using detectable repeat" and returns false; the last library
call is `xcb_xkb_per_client_flags_reply` and no window is created, whatever
`xcb_flush` would have answered. -/
theorem linux_startup_aborts_on_per_client_flags_error (sizeof_platform_state : Nat)
    (state_ptr : Option Nat) (buffer major_code : Nat) (x y width height stream_result : Int) :
    (Linux.platform_system_startup sizeof_platform_state state_ptr (some buffer)
      x y width height ⟨false, true, some true, some major_code, stream_result⟩).result =
      false ∧
    (Linux.platform_system_startup sizeof_platform_state state_ptr (some buffer)
      x y width height ⟨false, true, some true, some major_code, stream_result⟩).log =
      [Linux.startup_log.KERROR_per_client_flags major_code] ∧
    (Linux.platform_system_startup sizeof_platform_state state_ptr (some buffer)
      x y width height ⟨false, true, some true, some major_code, stream_result⟩).native_calls =
      [Linux.native_call.xcb_connect, Linux.native_call.xcb_connection_has_error,
        Linux.native_call.xcb_get_extension_data, Linux.native_call.xcb_xkb_use_extension,
        Linux.native_call.xcb_xkb_use_extension_reply,
        Linux.native_call.xcb_xkb_per_client_flags,
        Linux.native_call.xcb_xkb_per_client_flags_reply] ∧
    (Linux.platform_system_startup sizeof_platform_state state_ptr (some buffer)
      x y width height ⟨false, true, some true, none, 1⟩).result = true :=
  ⟨rfl, rfl, rfl, rfl⟩

/-! ## The two-phase startup probe -/

/-- Every call of the Linux `platform_system_startup` stores
`sizeof(platform_state)` in `*memory_requirement`. -/
theorem linux_startup_memory_requirement (sizeof_platform_state : Nat)
    (state_ptr state : Option Nat) (x y width height : Int)
    (answers : Linux.startup_answers) :
    (Linux.platform_system_startup sizeof_platform_state state_ptr state x y width height
      answers).memory_requirement = sizeof_platform_state := by
  cases state with
  | none => rfl
  | some buffer =>
    rcases answers with ⟨has_error, ext_reply, use_ext_reply, pcf_error, stream_result⟩
    cases has_error
    · cases ext_reply
      · rfl
      · rcases use_ext_reply with _ | supported
        · rfl
        · cases supported
          · rfl
          · cases pcf_error with
            | some major_code => rfl
            | none =>
              simp only [Linux.platform_system_startup]
              split_ifs <;> rfl
    · rfl

/-- Every call of the Windows `platform_system_startup` stores
`sizeof(platform_state)` in `*memory_requirement`. -/
theorem win32_startup_memory_requirement (sizeof_platform_state : Nat)
    (state_ptr state : Option Nat) (x y width height : Int)
    (answers : Win32.startup_answers) :
    (Win32.platform_system_startup sizeof_platform_state state_ptr state x y width height
      answers).memory_requirement = sizeof_platform_state := by
  cases state with
  | none => rfl
  | some buffer =>
    simp only [Win32.platform_system_startup]
    split_ifs <;> rfl

/-- C21: the two-phase initialization probe.  On both backends
`platform_system_startup` called with `state = 0` stores
`sizeof(platform_state)` in `*memory_requirement`, returns true and does
nothing else: the module's state pointer is as before, nothing is logged and no
native call is made.  A later call with a buffer stores the same memory
requirement, whatever the window system answers. -/
theorem startup_probe_reports_size_only (sizeof_platform_state : Nat)
    (state_ptr state_ptr_later : Option Nat) (buffer : Nat)
    (x y width height x2 y2 width2 height2 : Int)
    (la la2 : Linux.startup_answers) (wa wa2 : Win32.startup_answers) :
    Linux.platform_system_startup sizeof_platform_state state_ptr none x y width height la =
      ⟨true, sizeof_platform_state, state_ptr, [], []⟩ ∧
    Win32.platform_system_startup sizeof_platform_state state_ptr none x y width height wa =
      ⟨true, sizeof_platform_state, state_ptr, [], []⟩ ∧
    (Linux.platform_system_startup sizeof_platform_state state_ptr_later (some buffer)
        x2 y2 width2 height2 la2).memory_requirement =
      (Linux.platform_system_startup sizeof_platform_state state_ptr none
        x y width height la).memory_requirement ∧
    (Win32.platform_system_startup sizeof_platform_state state_ptr_later (some buffer)
        x2 y2 width2 height2 wa2).memory_requirement =
      (Win32.platform_system_startup sizeof_platform_state state_ptr none
        x y width height wa).memory_requirement := by
  refine ⟨rfl, rfl, ?_, ?_⟩
  · rw [linux_startup_memory_requirement, linux_startup_memory_requirement]
  · rw [win32_startup_memory_requirement, win32_startup_memory_requirement]

/-! ## The enumeration and the tables -/

/-- C22 (the code at the failing input): `KEY_F24` and `KEY_NUMLOCK` are
distinct named members of `enum keys` with the same value `0x6b`, and the index
`0x6c`, below `KEYS_MAX_KEYS`, is the value of no named member. -/
theorem keys_enum_is_no_bijection :
    keys.KEY_F24 ≠ keys.KEY_NUMLOCK ∧
    keys.KEY_F24.val = 0x6b ∧
    keys.KEY_NUMLOCK.val = 0x6b ∧
    0x6c < KEYS_MAX_KEYS ∧
    ∀ k : keys, k.val ≠ 0x6c := by
  refine ⟨by decide, by decide, by decide, by decide, ?_⟩
  intro k
  cases k <;> decide

/-- C23 (the code at the failing input): for the X button 3 the Linux pump
passes the detail as it is: a release calls `input_process_button(3, false)`
and a press `input_process_button(3, true)`, and `3` is `BUTTON_MAX_BUTTONS`,
not a value below it. -/
theorem linux_button_3_is_out_of_range (st : Linux.platform_state) :
    (Linux.platform_pump_messages (some st)
      [⟨Linux.XCB_BUTTON_RELEASE, 3, 0, 0, 0, 0, 0⟩]).calls =
      [Call.input_process_button 3 false] ∧
    (Linux.platform_pump_messages (some st)
      [⟨Linux.XCB_BUTTON_PRESS, 3, 0, 0, 0, 0, 0⟩]).calls =
      [Call.input_process_button 3 true, Call.input_process_button 3 false] ∧
    ¬ (3 < BUTTON_MAX_BUTTONS) := by
  refine ⟨?_, ?_, by decide⟩
  · simp +decide [Linux.platform_pump_messages, linux_pump_loop_eq, Linux.dispatch_event,
      Linux.case_XCB_BUTTON_RELEASE, Linux.XCB_BUTTON_RELEASE, Linux.XCB_BUTTON_PRESS,
      Linux.XCB_KEY_PRESS, Linux.XCB_KEY_RELEASE]
  · simp +decide [Linux.platform_pump_messages, linux_pump_loop_eq, Linux.dispatch_event,
      Linux.case_XCB_BUTTON_PRESS, Linux.case_XCB_BUTTON_RELEASE, Linux.XCB_BUTTON_PRESS,
      Linux.XCB_KEY_PRESS, Linux.XCB_KEY_RELEASE]

/-- C24: `translate_keycode` is the exact inverse of the table on real entries.
The entries of the Windows table are pairwise distinct and
`translate_keycode(key_lookup_table[i]) = i` for every `i < KEYS_MAX_KEYS`.
The entries of the Linux table other than the placeholder `KEYS_MAX_KEYS` are
pairwise distinct, no entry lies in the lowercase range `0x61..0x7a`, and
`translate_keycode(key_lookup_table[i]) = i` for every `i < KEYS_MAX_KEYS`
whose entry is not the placeholder. -/
theorem translate_inverts_table_on_real_entries (i : Nat) (hi : i < KEYS_MAX_KEYS) :
    (Win32.key_lookup_table.Nodup ∧
      Win32.translate_keycode (Win32.key_lookup_table.getD i 0) = some i) ∧
    ((Linux.key_lookup_table.filter (fun c => decide (c ≠ KEYS_MAX_KEYS))).Nodup ∧
      (∀ c ∈ Linux.key_lookup_table, ¬ (0x61 ≤ c ∧ c ≤ 0x7a)) ∧
      (Linux.key_lookup_table.getD i 0 ≠ KEYS_MAX_KEYS →
        Linux.translate_keycode (Linux.key_lookup_table.getD i 0) = i)) := by
  have h : ∀ j, j < KEYS_MAX_KEYS →
      Win32.translate_keycode (Win32.key_lookup_table.getD j 0) = some j ∧
      (Linux.key_lookup_table.getD j 0 ≠ KEYS_MAX_KEYS →
        Linux.translate_keycode (Linux.key_lookup_table.getD j 0) = j) := by
    decide
  exact ⟨⟨by decide, (h i hi).1⟩, by decide, by decide, (h i hi).2⟩

/-- C24 at slot 108, the slot of the number lock codes. -/
theorem translate_inverts_table_at_slot_108 :
    (Win32.key_lookup_table.Nodup ∧
      Win32.translate_keycode (Win32.key_lookup_table.getD 108 0) = some 108) ∧
    ((Linux.key_lookup_table.filter (fun c => decide (c ≠ KEYS_MAX_KEYS))).Nodup ∧
      (∀ c ∈ Linux.key_lookup_table, ¬ (0x61 ≤ c ∧ c ≤ 0x7a)) ∧
      (Linux.key_lookup_table.getD 108 0 ≠ KEYS_MAX_KEYS →
        Linux.translate_keycode (Linux.key_lookup_table.getD 108 0) = 108)) :=
  translate_inverts_table_on_real_entries 108 (by decide)

/-- C25: the Linux `translate_keycode` is total and in range.  For every input
it returns a value below `KEYS_MAX_KEYS`; whenever the folded keysym is held by
some slot `j` of `key_lookup_table`, the result is the least index holding it;
and the placeholder value `0x7c`, also the keysym of the bar character,
translates to index 3, `KEY_SHIFT`. -/
theorem linux_translate_total_least_index (x : Nat) :
    Linux.translate_keycode x < KEYS_MAX_KEYS ∧
    (∀ j, j < KEYS_MAX_KEYS →
      Linux.key_lookup_table.getD j 0 =
        (if x >>> 8 = 0 then
          (if x ≥ 0x0061 ∧ x ≤ 0x007a then x - (0x0061 - 0x0041) else x) else x) →
      Linux.key_lookup_table.getD (Linux.translate_keycode x) 0 =
        (if x >>> 8 = 0 then
          (if x ≥ 0x0061 ∧ x ≤ 0x007a then x - (0x0061 - 0x0041) else x) else x) ∧
      Linux.translate_keycode x ≤ j) ∧
    Linux.translate_keycode 0x7c = 3 ∧ keys.KEY_SHIFT.val = 3 := by
  refine ⟨?_, ?_, by decide, by decide⟩
  · unfold Linux.translate_keycode
    simp only []
    split
    · next i h =>
      obtain ⟨_, h2, _, _⟩ := lookup_loop_eq_some _ _ _ _ _ h
      omega
    · decide
  · intro j hj hmem
    unfold Linux.translate_keycode
    simp only []
    split
    · next i h =>
      obtain ⟨_, _, h3, h4⟩ := lookup_loop_eq_some _ _ _ _ _ h
      refine ⟨h3, ?_⟩
      by_contra hlt
      exact h4 j (Nat.zero_le _) (by omega) hmem
    · next h =>
      exact absurd hmem
        ((lookup_loop_eq_none_iff _ _ _ _).1 h j (Nat.zero_le _) (by omega))

/-- C25 at the keysym `0x7c` and slot 4, a later placeholder slot: the result
holds `0x7c` and is at most 4. -/
theorem linux_translate_total_least_index_at_bar :
    Linux.key_lookup_table.getD (Linux.translate_keycode 0x7c) 0 =
        (if 0x7c >>> 8 = 0 then
          (if 0x7c ≥ 0x0061 ∧ 0x7c ≤ 0x007a then 0x7c - (0x0061 - 0x0041) else 0x7c)
          else 0x7c) ∧
      Linux.translate_keycode 0x7c ≤ 4 :=
  (linux_translate_total_least_index 0x7c).2.1 4 (by decide) (by decide)

/-! ## The binary loader -/

/-- C26 (counterexample): with non-null `self`, `name` and `out_resource` and a
file that cannot be opened, `binary_loader_load` returns false and
`out_resource->full_path`, null before the call, holds the pointer that
`string_duplicate` returned. -/
theorem binary_loader_load_open_failure_changes_full_path :
    (binary_loader_load 1 2 (some ⟨7, 0, 0, 0, 0⟩) ⟨1000, false, none, 0, none⟩).result =
      false ∧
    (binary_loader_load 1 2 (some ⟨7, 0, 0, 0, 0⟩) ⟨1000, false, none, 0, none⟩).out_resource =
      some ⟨7, 0, 1000, 0, 0⟩ ∧
    (binary_loader_load 1 2 (some ⟨7, 0, 0, 0, 0⟩) ⟨1000, false, none, 0, none⟩).out_resource ≠
      some ⟨7, 0, 0, 0, 0⟩ := by
  decide

/-- C26 (amended): whenever `binary_loader_load` returns false, the fields
`data`, `data_size` and `name` (and `loader_id`) of `*out_resource` are the same
as before the call.  The field `full_path` is the same as before when `self` or
`name` is null, and holds the pointer returned by `string_duplicate` when the
failure is in opening, sizing or reading the file.  With a null `out_resource`
the call returns false. -/
theorem binary_loader_load_failure_keeps_data_and_name (self name : Nat) (r : resource)
    (answers : loader_answers)
    (hfail : (binary_loader_load self name (some r) answers).result = false) :
    (∃ r1 : resource,
      (binary_loader_load self name (some r) answers).out_resource = some r1 ∧
      r1.data = r.data ∧ r1.data_size = r.data_size ∧ r1.name = r.name ∧
      r1.loader_id = r.loader_id ∧
      ((self = 0 ∨ name = 0) → r1.full_path = r.full_path) ∧
      (¬ (self = 0 ∨ name = 0) → r1.full_path = answers.string_duplicate)) ∧
    (binary_loader_load self name none answers).result = false := by
  refine ⟨?_, rfl⟩
  rcases answers with ⟨dup, opened, size, alloc, read⟩
  by_cases hnull : self = 0 ∨ name = 0
  · refine ⟨r, ?_, rfl, rfl, rfl, rfl, fun _ => rfl, fun h => absurd hnull h⟩
    simp [binary_loader_load, hnull]
  · refine ⟨⟨r.loader_id, r.name, dup, r.data_size, r.data⟩, ?_, rfl, rfl, rfl, rfl,
      fun h => absurd h hnull, fun _ => rfl⟩
    cases opened with
    | false => simp [binary_loader_load, hnull]
    | true =>
      cases size with
      | none => simp [binary_loader_load, hnull]
      | some file_size =>
        cases read with
        | none => simp [binary_loader_load, hnull]
        | some read_size => simp [binary_loader_load, hnull] at hfail

/-- C26 (amended) at a file that opens but cannot be read: `data`, `data_size`
and `name` are as before and `full_path` is the duplicated path. -/
theorem binary_loader_load_failure_at_read_error :
    (∃ r1 : resource,
      (binary_loader_load 1 2 (some ⟨7, 3, 0, 5, 6⟩)
        ⟨1000, true, some 10, 2000, none⟩).out_resource = some r1 ∧
      r1.data = 6 ∧ r1.data_size = 5 ∧ r1.name = 3 ∧ r1.loader_id = 7 ∧
      (((1 : Nat) = 0 ∨ (2 : Nat) = 0) → r1.full_path = 0) ∧
      (¬ ((1 : Nat) = 0 ∨ (2 : Nat) = 0) → r1.full_path = 1000)) ∧
    (binary_loader_load 1 2 none ⟨1000, true, some 10, 2000, none⟩).result = false :=
  binary_loader_load_failure_keeps_data_and_name 1 2 ⟨7, 3, 0, 5, 6⟩
    ⟨1000, true, some 10, 2000, none⟩ (by decide)
